import Mathlib

/-
Verification of the resource datastore of ipfsync/publisher
(resource.go and the resource package's datastore implementation).

Modelling conventions:
* Go strings are modelled as `List Char` (`Str`); Go byte-string keys of the
  underlying BadgerDB store are the encoded key strings produced by
  `dbKey.String()`.
* `strings.Split`, `strings.ReplaceAll` and `strings.Join` are modelled by
  structural recursions with the same leftmost, non-overlapping match
  semantics, specialised to the separators the package actually uses
  ("::", ":" and "/").
* The BadgerDB store is an association list from encoded keys to values.
  Stored byte values are modelled by a tagged type `Val` (raw strings,
  big-endian uint32 counters, gob-encoded string lists); decoding a value of
  the wrong shape is a model-level error (in Go it would be a gob decode
  error or a garbage reinterpretation, neither of which the verified claims
  exercise).  Iteration over the association list is in insertion order
  while BadgerDB iterates in lexicographic key order; every theorem below
  only depends on order-insensitive observations (key presence, counters,
  set membership of scan results).
* `db.Update(f)` runs `f` on the current store and commits the result, or
  discards all writes when `f` fails; `db.View` reads run against the last
  committed store, so helper calls that open their own `View` inside an
  ongoing `Update` (as the Go code does via `d.ReadFolderChildren` etc.)
  read the snapshot taken when the `Update` began.  Functions therefore
  take both the committed snapshot (`snap`) and the transaction state
  (`txn`) where the Go code mixes both kinds of access.
* Go panics on invalid arguments or integrity violations are modelled as
  the errors `fatalInvalid` / `fatalIntegrity`.
* The unbounded recursions of `delFolderInTxn` and `copyFolderInTxn`
  (driven by children lists read from the store) take a fuel parameter;
  `outOfFuel` never occurs in the verified scenarios.
-/

namespace Resource

/-- Go strings, as lists of characters. -/
abbrev Str := List Char

/-- `lit s` is the character list of a Lean string literal. -/
def lit (s : String) : Str := s.toList

/-- Go `strings.Split(s, sep)` for a single-character separator `c`:
splits around every occurrence of `c`, left to right. -/
def splitChar (c : Char) : Str → List Str
  | [] => [[]]
  | a :: rest =>
    if a = c then [] :: splitChar c rest
    else
      match splitChar c rest with
      | [] => [[a]]
      | p :: ps => (a :: p) :: ps

/-- Go `strings.Join(parts, sep)` for a single-character separator `c`. -/
def joinChar (c : Char) : List Str → Str
  | [] => []
  | [p] => p
  | p :: ps => p ++ c :: joinChar c ps

/-- Go `strings.Split(str, "::")`: leftmost, non-overlapping split on the
two-character key separator. -/
def splitOnSep : Str → List Str
  | [] => [[]]
  | [c] => [[c]]
  | a :: b :: rest =>
    if a = ':' ∧ b = ':' then [] :: splitOnSep rest
    else
      match splitOnSep (b :: rest) with
      | [] => [[a]]
      | p :: ps => (a :: p) :: ps

/-- Go `strings.Join(parts, "::")`. -/
def joinSep : List Str → Str
  | [] => []
  | [p] => p
  | p :: ps => p ++ ':' :: ':' :: joinSep ps

/-- Go `strings.ReplaceAll(s, "::", "\:\:")`: leftmost, non-overlapping
replacement, as used by `dbKey.String()`. -/
def escapeSep : Str → Str
  | [] => []
  | [c] => [c]
  | a :: b :: rest =>
    if a = ':' ∧ b = ':' then '\\' :: ':' :: '\\' :: ':' :: escapeSep rest
    else a :: escapeSep (b :: rest)

/-- Go `strings.ReplaceAll(part, "\:\:", "::")`: leftmost, non-overlapping
replacement, as used by `newDbKeyFromStr`. -/
def unescapeSep : Str → Str
  | a :: b :: c :: d :: rest =>
    if a = '\\' ∧ b = ':' ∧ c = '\\' ∧ d = ':' then ':' :: ':' :: unescapeSep rest
    else a :: unescapeSep (b :: c :: d :: rest)
  | s => s

/-- `newDbKeyFromStr` (datastore.go): split the encoded key on "::" and
unescape every part. -/
def newDbKeyFromStr (str : Str) : List Str :=
  (splitOnSep str).map unescapeSep

/-- `dbKey.String()` (datastore.go): escape every segment and join the
escaped segments with "::". -/
def dbKeyString (k : List Str) : Str :=
  joinSep (k.map escapeSep)

/-! ### Value objects (resource.go) -/

/-- `Tag` (resource.go): an ordered list of string segments. -/
abbrev Tag := List Str

/-- `NewTagFromStr` (resource.go): `strings.Split(str, ":")`. -/
def NewTagFromStr (str : Str) : Tag := splitChar ':' str

/-- `Tag.String()` (resource.go): `strings.Join(t, ":")`. -/
def tagString (t : Tag) : Str := joinChar ':' t

/-- `Collection` (resource.go). -/
structure Collection where
  IPNSAddress : Str
  Name : Str
  Description : Str
  IsMine : Bool
deriving DecidableEq, Repr

/-- `Item` (resource.go). -/
structure Item where
  CID : Str
  Name : Str
  Tags : List Tag
deriving DecidableEq, Repr

/-- `Folder` (resource.go). -/
structure Folder where
  IPNSAddress : Str
  Path : Str
deriving DecidableEq, Repr

/-- `Folder.ParentPath` (resource.go): all but the last '/'-separated
segment, or "" for single-segment paths. -/
def Folder.ParentPath (f : Folder) : Str :=
  let parts := splitChar '/' f.Path
  if parts.length ≠ 1 then joinChar '/' parts.dropLast else []

/-- `Folder.Basename` (resource.go): the last '/'-separated segment. -/
def Folder.Basename (f : Folder) : Str :=
  (splitChar '/' f.Path).getLastD []

/-! ### The BadgerDB store model -/

/-- Stored values.  BadgerDB stores raw bytes; the datastore writes three
shapes of payload: raw strings, big-endian uint32 counters
(`tag::<t>::count`), and gob-encoded string lists (children lists). -/
inductive Val where
  | str : Str → Val
  | num : Nat → Val
  | strList : List Str → Val
deriving DecidableEq, Repr

/-- Reading a stored value back as a raw string (`string(valueBytes)`).
Only `.str` values are ever read this way by the claims below. -/
def Val.asStr : Val → Str
  | .str s => s
  | _ => []

/-- Errors.  The first group mirrors the package's sentinel error values;
`KeyNotFound` is `badger.ErrKeyNotFound` escaping to a caller;
`fatalInvalid`/`fatalIntegrity` model Go panics; `typeMismatch` is a
gob/binary decode of a value of the wrong shape; `outOfFuel` is
model-internal (unbounded Go recursion given insufficient fuel). -/
inductive Err where
  | IPNSNotFound
  | CIDNotFound
  | NegativeTagItemCount
  | FolderNotExists
  | ParentFolderNotExists
  | ItemNotInFolder
  | ItemInCollection
  | CantDelRootFolder
  | KeyNotFound
  | fatalInvalid
  | fatalIntegrity
  | typeMismatch
  | outOfFuel
deriving DecidableEq, Repr

/-- The store: an association list from encoded keys to values, at most one
binding per key.  BadgerDB iterates keys in lexicographic order; this model
iterates in insertion order, and every theorem below observes only
order-insensitive facts. -/
abbrev Store := List (Str × Val)

/-- Point lookup (`txn.Get`): `none` models `badger.ErrKeyNotFound`. -/
def Store.get : Store → Str → Option Val
  | [], _ => none
  | (k, v) :: rest, key => if k = key then some v else Store.get rest key

/-- `txn.Set`: overwrite in place, or append a new binding. -/
def Store.set : Store → Str → Val → Store
  | [], key, v => [(key, v)]
  | (k, w) :: rest, key, v =>
    if k = key then (k, v) :: rest else (k, w) :: Store.set rest key v

/-- `txn.Delete`: removing an absent key is a no-op. -/
def Store.del : Store → Str → Store
  | [], _ => []
  | (k, w) :: rest, key =>
    if k = key then Store.del rest key else (k, w) :: Store.del rest key

/-- All keys reachable by a prefix iteration (`it.Seek`/`it.ValidForPrefix`):
the keys of which `p` is a byte prefix. -/
def Store.keysWith (s : Store) (p : Str) : List Str :=
  (s.map Prod.fst).filter (fun k => p.isPrefixOf k)

/-- `d.db.Update(body)`: run the body on the current store; commit the
result, or discard every write when the body fails. -/
def dbUpdate (s : Store) (body : Store → Except Err Store) : Option Err × Store :=
  match body s with
  | .ok t => (none, t)
  | .error e => (some e, s)

/-! ### Datastore operations (datastore.go) -/

/-- `d.dropPrefix(txn, prefix)`: delete every key with the given byte
prefix. -/
def dropPrefix (txn : Store) (pfx : List Str) : Store :=
  txn.filter (fun kv => !((dbKeyString pfx).isPrefixOf kv.1))

/-- `d.checkIPNS(ipns)`: a `View` lookup of `collections::<ipns>`. -/
def checkIPNS (s : Store) (ipns : Str) : Option Err :=
  if ipns = [] then some .fatalInvalid
  else
    match s.get (dbKeyString [lit "collections", ipns]) with
    | none => some .IPNSNotFound
    | some _ => none

/-- `d.checkCID(cid)`: a `View` lookup of `items::<cid>`. -/
def checkCID (s : Store) (cid : Str) : Option Err :=
  if cid = [] then some .fatalInvalid
  else
    match s.get (dbKeyString [lit "items", cid]) with
    | none => some .CIDNotFound
    | some _ => none

/-- `d.isFolderPathExistsInTxn(txn, ipns, path)`.  `snap` is the committed
store (the internal `d.checkIPNS` opens its own `View`); `txn` is the
transaction the `folders::` lookup runs in. -/
def isFolderPathExistsInTxn (snap txn : Store) (ipns path : Str) : Except Err Bool :=
  match checkIPNS snap ipns with
  | some e => .error e
  | none =>
    match txn.get (dbKeyString [lit "folders", ipns, path]) with
    | none => .ok false
    | some _ => .ok true

/-- `d.IsFolderPathExists(ipns, path)`: the same check inside its own
`View`. -/
def IsFolderPathExists (s : Store) (ipns path : Str) : Except Err Bool :=
  isFolderPathExistsInTxn s s ipns path

/-- `d.assertParentInTxn(txn, folder)`: check the parent folder exists; a
missing root parent is created on the spot.  The Go recursion
`createOrUpdateFolderInTxn(txn, root)` reduces to the single write of the
root marker `folders::<ipns>::""` (for the root folder `isRoot` is true and
the function performs only that write), which is inlined here. -/
def assertParentInTxn (snap txn : Store) (folder : Folder) : Except Err Store :=
  if folder.ParentPath = [] then
    match isFolderPathExistsInTxn snap txn folder.IPNSAddress [] with
    | .error e => .error e
    | .ok rootExists =>
      if !rootExists then
        .ok (txn.set (dbKeyString [lit "folders", folder.IPNSAddress, []]) (.str []))
      else .ok txn
  else
    match isFolderPathExistsInTxn snap txn folder.IPNSAddress folder.ParentPath with
    | .error e => .error e
    | .ok ex => if !ex then .error .ParentFolderNotExists else .ok txn

/-- `d.createOrUpdateFolderInTxn(txn, folder)`: write the folder marker,
ensure the parent exists (non-root folders only), and append the folder's
path to the parent's children list. -/
def createOrUpdateFolderInTxn (snap txn : Store) (folder : Folder) : Except Err Store :=
  let txn := txn.set (dbKeyString [lit "folders", folder.IPNSAddress, folder.Path])
    (.str folder.Path)
  let parentPath := folder.ParentPath
  if folder.Path = [] ∧ parentPath = [] then .ok txn
  else
    match assertParentInTxn snap txn folder with
    | .error e => .error e
    | .ok txn =>
      let pck := dbKeyString [lit "folder", folder.IPNSAddress, parentPath, lit "children"]
      match txn.get pck with
      | none => .ok (txn.set pck (.strList [folder.Path]))
      | some (.strList children) => .ok (txn.set pck (.strList (children ++ [folder.Path])))
      | some _ => .error .typeMismatch

/-- `d.CreateOrUpdateCollection(c)`: upsert markers, attributes and the
owned-index entry, then create the root folder, in one transaction. -/
def CreateOrUpdateCollection (s : Store) (c : Collection) : Option Err × Store :=
  if c.Name = [] ∨ c.IPNSAddress = [] then (some .fatalInvalid, s)
  else
    dbUpdate s (fun txn =>
      let txn := txn.set (dbKeyString [lit "collections", c.IPNSAddress]) (.str c.IPNSAddress)
      let txn := txn.set (dbKeyString [lit "collection", c.IPNSAddress, lit "name"])
        (.str c.Name)
      let txn := txn.set (dbKeyString [lit "collection", c.IPNSAddress, lit "description"])
        (.str c.Description)
      let txn :=
        if c.IsMine then
          txn.set (dbKeyString [lit "collections_mine", c.IPNSAddress]) (.str c.IPNSAddress)
        else txn
      let ismine : Str := if c.IsMine then ['1'] else ['0']
      let txn := txn.set (dbKeyString [lit "collection", c.IPNSAddress, lit "ismine"])
        (.str ismine)
      createOrUpdateFolderInTxn s txn { IPNSAddress := c.IPNSAddress, Path := [] })

/-- `d.CreateOrUpdateFolder(folder)`. -/
def CreateOrUpdateFolder (s : Store) (folder : Folder) : Option Err × Store :=
  if folder.IPNSAddress = [] then (some .fatalInvalid, s)
  else
    match checkIPNS s folder.IPNSAddress with
    | some e => (some e, s)
    | none => dbUpdate s (fun txn => createOrUpdateFolderInTxn s txn folder)

/-- `d.ReadFolderChildren(folder)`: gob-decode the children list; an absent
key yields the empty list. -/
def ReadFolderChildren (s : Store) (folder : Folder) : Except Err (List Str) :=
  match IsFolderPathExists s folder.IPNSAddress folder.Path with
  | .error e => .error e
  | .ok false => .error .FolderNotExists
  | .ok true =>
    match s.get (dbKeyString [lit "folder", folder.IPNSAddress, folder.Path, lit "children"]) with
    | none => .ok []
    | some (.strList children) => .ok children
    | some _ => .error .typeMismatch

/-- `d.ReadCollectionItems(ipns)`: scan `collection_item::<ipns>` and take
segment 2 of every decoded key. -/
def ReadCollectionItems (s : Store) (ipns : Str) : Except Err (List Str) :=
  match checkIPNS s ipns with
  | some e => .error e
  | none =>
    .ok ((s.keysWith (dbKeyString [lit "collection_item", ipns])).map
      (fun k => (newDbKeyFromStr k).getD 2 []))

/-- `d.DelCollection(ipns)`: delete the registry key, the `collection::`,
`collection_item::`, `folders::` and `folder::` namespaces of the address,
and the `item_folder`/`item_collection` back-references of every member
item.  The member list is read through `d.ReadCollectionItems`, i.e. a
`View` of the committed store. -/
def DelCollection (s : Store) (ipns : Str) : Option Err × Store :=
  match checkIPNS s ipns with
  | some e => (some e, s)
  | none =>
    dbUpdate s (fun txn =>
      match ReadCollectionItems s ipns with
      | .error e => .error e
      | .ok items =>
        let txn := txn.del (dbKeyString [lit "collections", ipns])
        let txn := dropPrefix txn [lit "collection", ipns]
        let txn := dropPrefix txn [lit "collection_item", ipns]
        let txn := dropPrefix txn [lit "folders", ipns]
        let txn := dropPrefix txn [lit "folder", ipns]
        .ok (items.foldl (fun txn v =>
          let txn := dropPrefix txn [lit "item_folder", v, ipns]
          txn.del (dbKeyString [lit "item_collection", v, ipns])) txn))

/-- `d.ReadItem(cid)`: read the name and prefix-scan `item_tag::<cid>`,
turning the last segment of every decoded key into a `Tag`. -/
def ReadItem (s : Store) (cid : Str) : Except Err Item :=
  match checkCID s cid with
  | some e => .error e
  | none =>
    match s.get (dbKeyString [lit "item", cid, lit "name"]) with
    | none => .error .KeyNotFound
    | some v =>
      let tags := (s.keysWith (dbKeyString [lit "item_tag", cid])).map
        (fun k =>
          let kTag := newDbKeyFromStr k
          NewTagFromStr (kTag.getLastD []))
      .ok { CID := cid, Name := v.asStr, Tags := tags }

/-- `d.updateTagItemCount(txn, t, diff)`: read the big-endian uint32
counter (an absent key yields `c = 1` regardless of the sign of `diff`),
fail with `NegativeTagItemCount` when an existing counter would go
negative, write the new value, and garbage-collect the `tags::<t>` and
`tag::<t>` namespaces when the new value is zero. -/
def updateTagItemCount (txn : Store) (t : Tag) (diff : Int) : Except Err Store :=
  if t.isEmpty || diff == 0 then .error .fatalInvalid
  else
    let tagKey := dbKeyString [lit "tag", tagString t, lit "count"]
    let cE : Except Err Int :=
      match txn.get tagKey with
      | none => .ok 1
      | some (.num n) =>
        let c : Int := (n : Int) + diff
        if c < 0 then .error .NegativeTagItemCount else .ok c
      | some _ => .error .typeMismatch
    match cE with
    | .error e => .error e
    | .ok c =>
      let txn := txn.set tagKey (.num (c.toNat % 4294967296))
      if c = 0 then
        let txn := dropPrefix txn [lit "tags", tagString t]
        .ok (dropPrefix txn [lit "tag", tagString t])
      else .ok txn

/-- `d.addItemTagInTxn(txn, cid, t)`: set both directions of the item↔tag
association; a fresh association also registers the tag and increments its
reference count; a forward/reverse mismatch is a Go panic. -/
def addItemTagInTxn (txn : Store) (cid : Str) (t : Tag) : Except Err Store :=
  if cid = [] || t.isEmpty then .error .fatalInvalid
  else
    let itemTagKey := dbKeyString [lit "item_tag", cid, tagString t]
    let tagExist := (txn.get itemTagKey).isSome
    let txn := txn.set itemTagKey (.str (tagString t))
    let tagItemKey := dbKeyString [lit "tag_item", tagString t, cid]
    let tagItemPresent := (txn.get tagItemKey).isSome
    if (tagItemPresent && !tagExist) || (!tagItemPresent && tagExist) then
      .error .fatalIntegrity
    else
      let txn := txn.set tagItemKey (.str cid)
      if !tagExist then
        let txn := txn.set (dbKeyString [lit "tags", tagString t]) (.str (tagString t))
        updateTagItemCount txn t 1
      else .ok txn

/-- `d.CreateOrUpdateItem(i)`: the previous state is read through
`d.ReadItem` in a separate transaction (the TOCTOU noted in the spec);
inside the update, old tag associations are dropped and decremented, then
the new tag set is added. -/
def CreateOrUpdateItem (s : Store) (i : Item) : Option Err × Store :=
  if i.CID = [] || i.Name = [] then (some .fatalInvalid, s)
  else
    let iOld := (ReadItem s i.CID).toOption
    dbUpdate s (fun txn => do
      let txn := txn.set (dbKeyString [lit "items", i.CID]) (.str i.CID)
      let txn := txn.set (dbKeyString [lit "item", i.CID, lit "name"]) (.str i.Name)
      let txn ←
        match iOld with
        | none => pure txn
        | some old =>
          let txn := dropPrefix txn [lit "item_tag", i.CID]
          old.Tags.foldlM (fun txn t => do
            let txn := txn.del (dbKeyString [lit "tag_item", tagString t, i.CID])
            updateTagItemCount txn t (-1)) txn
      i.Tags.foldlM (fun txn t => addItemTagInTxn txn i.CID t) txn)

/-- `d.AddItemTag(cid, t)`. -/
def AddItemTag (s : Store) (cid : Str) (t : Tag) : Option Err × Store :=
  if t.isEmpty || cid = [] then (some .fatalInvalid, s)
  else
    match checkCID s cid with
    | some e => (some e, s)
    | none => dbUpdate s (fun txn => addItemTagInTxn txn cid t)

/-- `d.RemoveItemTag(cid, t)`: delete both directions (deleting an absent
key is a no-op) and decrement the reference count. -/
def RemoveItemTag (s : Store) (cid : Str) (t : Tag) : Option Err × Store :=
  if t.isEmpty || cid = [] then (some .fatalInvalid, s)
  else
    match checkCID s cid with
    | some e => (some e, s)
    | none =>
      dbUpdate s (fun txn =>
        let txn := txn.del (dbKeyString [lit "item_tag", cid, tagString t])
        let txn := txn.del (dbKeyString [lit "tag_item", tagString t, cid])
        updateTagItemCount txn t (-1))

/-- `d.SearchTags(prefix)`: scan `tags::<prefix>` (a byte prefix, so
partial segment matches are included), deduplicate segment 1 of the
decoded keys, and build tags.  The Go code collects the strings into a map
and iterates it in unspecified order; the model keeps scan order.  The
theorems below only use membership in the result. -/
def SearchTags (s : Store) (pfx : Str) : Except Err (List Tag) :=
  if pfx = [] then .error .fatalInvalid
  else
    let keys := ((s.keysWith (dbKeyString [lit "tags", pfx])).map
      (fun k => (newDbKeyFromStr k).getD 1 [])).eraseDups
    .ok (keys.map NewTagFromStr)

/-- `d.ReadTagItemCount(tags)`: the stored counter per tag, zero when the
tag has no counter key. -/
def ReadTagItemCount (s : Store) (tags : List Tag) : Except Err (List Nat) :=
  if tags.isEmpty then .error .fatalInvalid
  else
    tags.foldlM (fun counts t =>
      if t.isEmpty then .error .fatalInvalid
      else
        match s.get (dbKeyString [lit "tag", tagString t, lit "count"]) with
        | none => .ok (counts ++ [0])
        | some (.num n) => .ok (counts ++ [n])
        | some _ => .error .typeMismatch) []

/-- `d.IsItemInCollection(cid, ipns)`. -/
def IsItemInCollection (s : Store) (cid ipns : Str) : Except Err Bool :=
  match checkCID s cid with
  | some e => .error e
  | none =>
    match checkIPNS s ipns with
    | some e => .error e
    | none => .ok ((s.get (dbKeyString [lit "item_collection", cid, ipns])).isSome)

/-- `d.isItemInFolderInTxn(txn, cid, folder)`. -/
def isItemInFolderInTxn (snap txn : Store) (cid : Str) (folder : Folder) :
    Except Err Bool :=
  match checkCID snap cid with
  | some e => .error e
  | none =>
    match isFolderPathExistsInTxn snap txn folder.IPNSAddress folder.Path with
    | .error e => .error e
    | .ok false => .error .FolderNotExists
    | .ok true =>
      .ok ((txn.get (dbKeyString
        [lit "item_folder", cid, folder.IPNSAddress, folder.Path])).isSome)

/-- `d.IsItemInFolder(cid, folder)`. -/
def IsItemInFolder (s : Store) (cid : Str) (folder : Folder) : Except Err Bool :=
  isItemInFolderInTxn s s cid folder

/-- `d.ReadFolderItems(folder)`: scan `folder_item::<ipns>::<path>` and
take segment 3 of every decoded key. -/
def ReadFolderItems (s : Store) (folder : Folder) : Except Err (List Str) :=
  match IsFolderPathExists s folder.IPNSAddress folder.Path with
  | .error e => .error e
  | .ok false => .error .FolderNotExists
  | .ok true =>
    .ok ((s.keysWith (dbKeyString [lit "folder_item", folder.IPNSAddress, folder.Path])).map
      (fun k => (newDbKeyFromStr k).getD 3 []))

/-- `d.AddItemToFolder(cid, folder)`: set both directions of the
item↔folder relation. -/
def AddItemToFolder (s : Store) (cid : Str) (folder : Folder) : Option Err × Store :=
  match checkCID s cid with
  | some e => (some e, s)
  | none =>
    match IsFolderPathExists s folder.IPNSAddress folder.Path with
    | .error e => (some e, s)
    | .ok false => (some .FolderNotExists, s)
    | .ok true =>
      dbUpdate s (fun txn =>
        let txn := txn.set (dbKeyString
          [lit "item_folder", cid, folder.IPNSAddress, folder.Path]) (.str folder.Path)
        .ok (txn.set (dbKeyString
          [lit "folder_item", folder.IPNSAddress, folder.Path, cid]) (.str cid)))

/-- `d.AddItemToCollection(cid, ipns)`: set both membership directions in
one transaction, then add the item to the root folder in a second
transaction. -/
def AddItemToCollection (s : Store) (cid ipns : Str) : Option Err × Store :=
  match IsItemInCollection s cid ipns with
  | .error e => (some e, s)
  | .ok true => (some .ItemInCollection, s)
  | .ok false =>
    let r := dbUpdate s (fun txn =>
      let txn := txn.set (dbKeyString [lit "collection_item", ipns, cid]) (.str cid)
      .ok (txn.set (dbKeyString [lit "item_collection", cid, ipns]) (.str ipns)))
    match r.1 with
    | some e => (some e, r.2)
    | none => AddItemToFolder r.2 cid { IPNSAddress := ipns, Path := [] }

/-- `d.RemoveItemFromFolder(cid, folder)`: delete both directions; fails
with `ItemNotInFolder` when the forward key is absent. -/
def RemoveItemFromFolder (s : Store) (cid : Str) (folder : Folder) : Option Err × Store :=
  match checkCID s cid with
  | some e => (some e, s)
  | none =>
    dbUpdate s (fun txn =>
      let k := dbKeyString [lit "item_folder", cid, folder.IPNSAddress, folder.Path]
      match txn.get k with
      | none => .error .ItemNotInFolder
      | some _ =>
        let txn := txn.del k
        .ok (txn.del (dbKeyString
          [lit "folder_item", folder.IPNSAddress, folder.Path, cid])))

/-- `d.removeItemFromCollectionInTxn(txn, cid, ipns)`: collect the item's
folder paths in the collection from the transaction state, drop all of its
`item_folder`/`folder_item` keys there, then delete both membership
directions. -/
def removeItemFromCollectionInTxn (txn : Store) (cid ipns : Str) : Except Err Store :=
  let paths := (txn.keysWith (dbKeyString [lit "item_folder", cid, ipns])).map
    (fun k => (newDbKeyFromStr k).getD 3 [])
  let txn := dropPrefix txn [lit "item_folder", cid, ipns]
  let txn := paths.foldl (fun txn v =>
    txn.del (dbKeyString [lit "folder_item", ipns, v, cid])) txn
  let txn := txn.del (dbKeyString [lit "collection_item", ipns, cid])
  .ok (txn.del (dbKeyString [lit "item_collection", cid, ipns]))

/-- `d.RemoveItemFromCollection(cid, ipns)`. -/
def RemoveItemFromCollection (s : Store) (cid ipns : Str) : Option Err × Store :=
  match checkCID s cid with
  | some e => (some e, s)
  | none =>
    match checkIPNS s ipns with
    | some e => (some e, s)
    | none => dbUpdate s (fun txn => removeItemFromCollectionInTxn txn cid ipns)

/-- `d.delFolderInTxn(txn, folder)`: post-order recursive delete.  The
existence check, children list and item list are read through `View`s of
the committed snapshot (the Go code calls `d.IsFolderPathExists`,
`d.ReadFolderChildren`, `d.ReadFolderItems`, which open their own read
transactions); the deletions and membership checks run in the
transaction.  Recursion is fuelled: the children lists come from the
store, so Go's recursion is unbounded on cyclic data. -/
def delFolderInTxn : Nat → Store → Store → Folder → Except Err Store
  | 0, _, _, _ => .error .outOfFuel
  | fuel + 1, snap, txn, folder =>
    match IsFolderPathExists snap folder.IPNSAddress folder.Path with
    | .error e => .error e
    | .ok false => .ok txn
    | .ok true => do
      let children ← ReadFolderChildren snap folder
      let txn ← children.foldlM (fun txn child =>
        delFolderInTxn fuel snap txn { IPNSAddress := folder.IPNSAddress, Path := child }) txn
      let items ← ReadFolderItems snap folder
      let txn ← items.foldlM (fun txn cid => do
        let txn := txn.del (dbKeyString
          [lit "item_folder", cid, folder.IPNSAddress, folder.Path])
        let stillIn := !(txn.keysWith (dbKeyString
          [lit "item_folder", cid, folder.IPNSAddress])).isEmpty
        if stillIn then pure txn
        else removeItemFromCollectionInTxn txn cid folder.IPNSAddress) txn
      let txn := dropPrefix txn [lit "folder_item", folder.IPNSAddress, folder.Path]
      let txn := dropPrefix txn [lit "folder", folder.IPNSAddress, folder.Path]
      pure (txn.del (dbKeyString [lit "folders", folder.IPNSAddress, folder.Path]))

/-- `d.DelFolder(folder)`: refuse the root, require existence, delete the
subtree, then rewrite the parent's children list without the folder's
path. -/
def DelFolder (fuel : Nat) (s : Store) (folder : Folder) : Option Err × Store :=
  if folder.Path = [] then (some .CantDelRootFolder, s)
  else
    match IsFolderPathExists s folder.IPNSAddress folder.Path with
    | .error e => (some e, s)
    | .ok false => (some .FolderNotExists, s)
    | .ok true =>
      dbUpdate s (fun txn => do
        let txn ← delFolderInTxn fuel s txn folder
        let pck := dbKeyString
          [lit "folder", folder.IPNSAddress, folder.ParentPath, lit "children"]
        match txn.get pck with
        | none => pure txn
        | some (.strList pChildren) =>
          pure (txn.set pck (.strList (pChildren.filter (fun child => child ≠ folder.Path))))
        | some _ => .error .typeMismatch)

/-- `d.moveOrCopyItemInTxn(txn, cid, from, to, copy)`.  Note: when moving,
the delete of the old `item_folder` key is built with a trailing extra
`cid` segment, exactly as in the source (`dbKey{"item_folder", cid,
folderFrom.IPNSAddress, folderFrom.Path, cid}`). -/
def moveOrCopyItemInTxn (snap txn : Store) (cid : Str) (folderFrom folderTo : Folder)
    (copy : Bool) : Except Err Store :=
  match checkCID snap cid with
  | some e => .error e
  | none =>
    match isItemInFolderInTxn snap txn cid folderFrom with
    | .error e => .error e
    | .ok false => .ok txn
    | .ok true =>
      match isFolderPathExistsInTxn snap txn folderTo.IPNSAddress folderTo.Path with
      | .error e => .error e
      | .ok false => .ok txn
      | .ok true =>
        let txn := txn.set (dbKeyString
          [lit "folder_item", folderTo.IPNSAddress, folderTo.Path, cid]) (.str cid)
        let txn :=
          if !copy then
            txn.del (dbKeyString
              [lit "folder_item", folderFrom.IPNSAddress, folderFrom.Path, cid])
          else txn
        let txn := txn.set (dbKeyString
          [lit "item_folder", cid, folderTo.IPNSAddress, folderTo.Path])
          (.str folderTo.Path)
        let txn :=
          if !copy then
            txn.del (dbKeyString
              [lit "item_folder", cid, folderFrom.IPNSAddress, folderFrom.Path, cid])
          else txn
        if folderFrom.IPNSAddress ≠ folderTo.IPNSAddress then
          let txn := txn.set (dbKeyString
            [lit "collection_item", folderTo.IPNSAddress, cid]) (.str cid)
          let txn := txn.set (dbKeyString
            [lit "item_collection", cid, folderTo.IPNSAddress]) (.str folderTo.IPNSAddress)
          if !copy then
            let txn := txn.del (dbKeyString
              [lit "collection_item", folderFrom.IPNSAddress, cid])
            .ok (txn.del (dbKeyString
              [lit "item_collection", cid, folderFrom.IPNSAddress]))
          else .ok txn
        else .ok txn

/-- `d.MoveOrCopyItem(cid, from, to, copy)`.  The Go function returns `nil`
unconditionally after the update (its final `return nil` discards the
transaction error), which the model reproduces. -/
def MoveOrCopyItem (s : Store) (cid : Str) (folderFrom folderTo : Folder)
    (copy : Bool) : Option Err × Store :=
  match checkCID s cid with
  | some e => (some e, s)
  | none =>
    match IsItemInFolder s cid folderFrom with
    | .error e => (some e, s)
    | .ok false => (some .ItemNotInFolder, s)
    | .ok true =>
      match IsFolderPathExists s folderTo.IPNSAddress folderTo.Path with
      | .error e => (some e, s)
      | .ok false => (some .FolderNotExists, s)
      | .ok true =>
        let r := dbUpdate s (fun txn =>
          moveOrCopyItemInTxn s txn cid folderFrom folderTo copy)
        (none, r.2)

/-- `d.copyFolderInTxn(txn, from, to)`: create the destination when its
path is absent in the snapshot, copy the items (always with `copy = true`),
then recurse over the children (whose read error is discarded by the
source). -/
def copyFolderInTxn : Nat → Store → Store → Folder → Folder → Except Err Store
  | 0, _, _, _, _ => .error .outOfFuel
  | fuel + 1, snap, txn, folderFrom, folderTo => do
    let folderToExists ←
      match IsFolderPathExists snap folderTo.IPNSAddress folderTo.Path with
      | .error e => .error e
      | .ok b => pure b
    let txn ←
      if !folderToExists then createOrUpdateFolderInTxn snap txn folderTo
      else pure txn
    let cids ←
      match ReadFolderItems snap folderFrom with
      | .error e => .error e
      | .ok cids => pure cids
    let txn ← cids.foldlM (fun txn cid =>
      moveOrCopyItemInTxn snap txn cid folderFrom folderTo true) txn
    let children := (ReadFolderChildren snap folderFrom).toOption.getD []
    children.foldlM (fun txn child =>
      let subFrom : Folder := { IPNSAddress := folderFrom.IPNSAddress, Path := child }
      let subTo : Folder :=
        { IPNSAddress := folderTo.IPNSAddress
          Path := folderTo.Path ++ '/' :: subFrom.Basename }
      copyFolderInTxn fuel snap txn subFrom subTo) txn

/-- `d.MoveOrCopyFolder(from, to, copy)`: the copy commits in its own
transaction; a move then deletes the source subtree via `d.DelFolder`, a
second transaction on the committed copy. -/
def MoveOrCopyFolder (fuel : Nat) (s : Store) (folderFrom folderTo : Folder)
    (copy : Bool) : Option Err × Store :=
  match IsFolderPathExists s folderFrom.IPNSAddress folderFrom.Path with
  | .error e => (some e, s)
  | .ok false => (some .FolderNotExists, s)
  | .ok true =>
    match checkIPNS s folderTo.IPNSAddress with
    | some e => (some e, s)
    | none =>
      let r := dbUpdate s (fun txn => copyFolderInTxn fuel s txn folderFrom folderTo)
      match r.1 with
      | some e => (some e, r.2)
      | none => if !copy then DelFolder fuel r.2 folderFrom else (none, r.2)

/-- `d.IsCollectionEmpty(ipns)`: any `collection_item::<ipns>` key? -/
def IsCollectionEmpty (s : Store) (ipns : Str) : Except Err Bool :=
  match checkIPNS s ipns with
  | some e => .error e
  | none => .ok ((s.keysWith (dbKeyString [lit "collection_item", ipns])).isEmpty)

deriving instance DecidableEq for Except

/-! ### Concrete scenario states used by the claim theorems -/

def tagT1 : Tag := [lit "t1"]

def tagT2 : Tag := [lit "t2"]

def tagT3 : Tag := [lit "t3"]

def tagT4 : Tag := [lit "t4"]

/-- C2 scenario: the item as first created, with tags T1, T2, T3. -/
def C2_itemV1 : Item := { CID := lit "c1", Name := lit "n", Tags := [tagT1, tagT2, tagT3] }

/-- C2 scenario: the same item updated to drop T3. -/
def C2_itemV2 : Item := { CID := lit "c1", Name := lit "n", Tags := [tagT1, tagT2] }

def C2_s1 : Store := (CreateOrUpdateItem [] C2_itemV1).2

def C2_s2 : Store := (CreateOrUpdateItem C2_s1 C2_itemV2).2

def C2_s3 : Store := (AddItemTag C2_s2 (lit "c1") tagT4).2

def C2_s4 : Store := (RemoveItemTag C2_s3 (lit "c1") tagT4).2

/-- C3 scenario: a store holding one item and no tag data at all. -/
def C3_s : Store := (CreateOrUpdateItem [] { CID := lit "c1", Name := lit "n", Tags := [] }).2

def C3_r : Option Err × Store := RemoveItemTag C3_s (lit "c1") [lit "t"]

/-- C4/C5/C6 collection address. -/
def adr : Str := lit "test"

def rootF : Folder := { IPNSAddress := adr, Path := [] }

/-- C4 scenario: a collection, an item added to it (hence into the root
folder), which is then the item's only folder membership. -/
def C4_s3 : Store :=
  (AddItemToCollection
    ((CreateOrUpdateItem
      ((CreateOrUpdateCollection []
        { IPNSAddress := adr, Name := lit "N", Description := lit "D", IsMine := false }).2)
      { CID := lit "c1", Name := lit "n", Tags := [] }).2)
    (lit "c1") adr).2

def C4_r : Option Err × Store := RemoveItemFromFolder C4_s3 (lit "c1") rootF

def C4_fa : Folder := { IPNSAddress := adr, Path := lit "a" }

/-- C4 amended scenario: the item's only folder membership is folder "a". -/
def C4_s6 : Store :=
  (AddItemToFolder ((CreateOrUpdateFolder C4_r.2 C4_fa).2) (lit "c1") C4_fa).2

def C4_rd : Option Err × Store := DelFolder 10 C4_s6 C4_fa

/-- C5 scenario: an owned collection with one member item (in the root
folder). -/
def C5_s3 : Store :=
  (AddItemToCollection
    ((CreateOrUpdateItem
      ((CreateOrUpdateCollection []
        { IPNSAddress := adr, Name := lit "N", Description := lit "D", IsMine := true }).2)
      { CID := lit "c1", Name := lit "n", Tags := [] }).2)
    (lit "c1") adr).2

def C5_r : Option Err × Store := DelCollection C5_s3 adr

/-- C6 folders. -/
def C6_fa : Folder := { IPNSAddress := adr, Path := lit "a" }

def C6_fab : Folder := { IPNSAddress := adr, Path := lit "a/b" }

def C6_fcopy : Folder := { IPNSAddress := adr, Path := lit "a-copy" }

/-- C6 scenario: folder "a" holding item i1 and subfolder "a/b" holding
item i2 (both items are also in the root folder, where
`AddItemToCollection` put them). -/
def C6_s9 : Store :=
  (AddItemToFolder
    ((AddItemToFolder
      ((AddItemToCollection
        ((AddItemToCollection
          ((CreateOrUpdateFolder
            ((CreateOrUpdateFolder
              ((CreateOrUpdateItem
                ((CreateOrUpdateItem
                  ((CreateOrUpdateCollection []
                    { IPNSAddress := adr, Name := lit "N", Description := lit "D",
                      IsMine := false }).2)
                  { CID := lit "i1", Name := lit "n", Tags := [] }).2)
                { CID := lit "i2", Name := lit "n", Tags := [] }).2)
              C6_fa).2)
            C6_fab).2)
          (lit "i1") adr).2)
        (lit "i2") adr).2)
      (lit "i1") C6_fa).2)
    (lit "i2") C6_fab).2

def C6_copy : Option Err × Store := MoveOrCopyFolder 10 C6_s9 C6_fa C6_fcopy true

def C6_move : Option Err × Store := MoveOrCopyFolder 10 C6_s9 C6_fa C6_fcopy false

/-- C7 witness store: one existing collection, no folders yet. -/
def C7_ws : Store := [(dbKeyString [lit "collections", lit "test"], .str (lit "test"))]

/-- C8 witness store: a collection with an existing root folder. -/
def C8w_s : Store := [(dbKeyString [lit "collections", lit "test"], .str (lit "test")),
  (dbKeyString [lit "folders", lit "test", []], .str [])]

/-- C8 witness: the transaction state after creating folder "x". -/
def C8w_t : Store :=
  (C8w_s.set (dbKeyString [lit "folders", lit "test", lit "x"]) (.str (lit "x"))).set
    (dbKeyString [lit "folder", lit "test", [], lit "children"]) (.strList [lit "x"])

/-- C9 scenario: a collection created with the owned flag set. -/
def C9_cT : Collection :=
  { IPNSAddress := adr, Name := lit "N", Description := lit "D", IsMine := true }

/-- C9 scenario: the same collection re-applied with the owned flag off. -/
def C9_cF : Collection :=
  { IPNSAddress := adr, Name := lit "N", Description := lit "D", IsMine := false }

def C9_s1 : Store := (CreateOrUpdateCollection [] C9_cT).2

def C9_s2 : Store := (CreateOrUpdateCollection C9_s1 C9_cF).2

/-- C10 folder "a". -/
def C10_fa : Folder := { IPNSAddress := adr, Path := lit "a" }

/-- C10: base store, a freshly created collection. -/
def C10_base : Store := (CreateOrUpdateCollection []
  { IPNSAddress := adr, Name := lit "N", Description := lit "D", IsMine := false }).2

/-- C10: the store after at least one `CreateOrUpdateFolder` of "a", whose
root children list holds `l`. -/
def C10_store (l : List Str) : Store :=
  C10_base ++ [(dbKeyString [lit "folders", adr, lit "a"], .str (lit "a")),
    (dbKeyString [lit "folder", adr, [], lit "children"], .strList l)]

/-- C10: the store after `n` calls of `CreateOrUpdateFolder` for folder
"a". -/
def C10_iter : Nat → Store
  | 0 => C10_base
  | n + 1 => (CreateOrUpdateFolder (C10_iter n) C10_fa).2

/-! ### Properties of the key codec (claim C1) -/

theorem splitOnSep_ne_nil (s : Str) : splitOnSep s ≠ [] := by
  induction s using splitOnSep.induct with
  | case1 => simp [splitOnSep]
  | case2 c => simp [splitOnSep]
  | case3 a b rest h ih => simp [splitOnSep, h]
  | case4 a b rest h hs ih => simp [splitOnSep, if_neg h, hs]
  | case5 a b rest h p ps hs ih => simp [splitOnSep, if_neg h, hs]

theorem splitOnSep_sep (rest : Str) :
    splitOnSep (':' :: ':' :: rest) = [] :: splitOnSep rest := by
  simp [splitOnSep]

theorem splitOnSep_cons_of_cons (a b : Char) (rest : Str) (h : ¬ (a = ':' ∧ b = ':'))
    (p : Str) (ps : List Str) (hs : splitOnSep (b :: rest) = p :: ps) :
    splitOnSep (a :: b :: rest) = (a :: p) :: ps := by
  simp [splitOnSep, if_neg h, hs]

theorem joinSep_cons_cons (c : Char) (p : Str) (ps : List Str) :
    joinSep ((c :: p) :: ps) = c :: joinSep (p :: ps) := by
  cases ps <;> simp [joinSep]

/-- Splitting and rejoining on "::" is the identity (Go split/join identity). -/
theorem joinSep_splitOnSep (s : Str) : joinSep (splitOnSep s) = s := by
  induction s using splitOnSep.induct with
  | case1 => simp [splitOnSep, joinSep]
  | case2 c => simp [splitOnSep, joinSep]
  | case3 a b rest h ih =>
    obtain ⟨rfl, rfl⟩ := h
    rcases hs : splitOnSep rest with _ | ⟨p, ps⟩
    · exact absurd hs (splitOnSep_ne_nil rest)
    · rw [hs] at ih
      rw [splitOnSep_sep, hs,
        show joinSep ([] :: p :: ps) = ':' :: ':' :: joinSep (p :: ps) by simp [joinSep], ih]
  | case4 a b rest h hs ih => exact absurd hs (splitOnSep_ne_nil _)
  | case5 a b rest h p ps hs ih =>
    rw [hs] at ih
    rw [splitOnSep_cons_of_cons a b rest h p ps hs, joinSep_cons_cons, ih]

/-- The first part returned by the splitter starts the input string. -/
theorem splitOnSep_head_pre (s : Str) :
    ∀ p ps, splitOnSep s = p :: ps → p <+: s := by
  induction s using splitOnSep.induct with
  | case1 =>
    intro p ps h
    simp [splitOnSep] at h
    simp [h.1]
  | case2 c =>
    intro p ps h
    simp [splitOnSep] at h
    simp [h.1]
  | case3 a b rest h ih =>
    intro p ps hp
    obtain ⟨rfl, rfl⟩ := h
    rw [splitOnSep_sep] at hp
    cases hp
    simp
  | case4 a b rest h hs ih => exact absurd hs (splitOnSep_ne_nil _)
  | case5 a b rest h u us hs ih =>
    intro q qs hq
    rw [splitOnSep_cons_of_cons a b rest h u us hs] at hq
    injection hq with h1 h2
    subst h1
    have hp : u <+: b :: rest := ih u us hs
    exact List.cons_prefix_cons.mpr ⟨rfl, hp⟩

/-- No part returned by the splitter contains the separator "::". -/
theorem splitOnSep_no_sep (s : Str) :
    ∀ p ∈ splitOnSep s, ¬ ([':', ':'] <:+: p) := by
  induction s using splitOnSep.induct with
  | case1 =>
    intro p hp
    simp [splitOnSep] at hp
    subst hp
    intro hin
    have := hin.length_le
    simp at this
  | case2 c =>
    intro p hp
    simp [splitOnSep] at hp
    subst hp
    intro hin
    have := hin.length_le
    simp at this
  | case3 a b rest h ih =>
    intro p hp
    obtain ⟨rfl, rfl⟩ := h
    rw [splitOnSep_sep] at hp
    rcases List.mem_cons.mp hp with rfl | hp
    · intro hin
      have := hin.length_le
      simp at this
    · exact ih p hp
  | case4 a b rest h hs ih => exact absurd hs (splitOnSep_ne_nil _)
  | case5 a b rest h u us hs ih =>
    intro q hq
    rw [splitOnSep_cons_of_cons a b rest h u us hs] at hq
    rcases List.mem_cons.mp hq with rfl | hq
    · intro hin
      rcases List.infix_cons_iff.mp hin with hpre | hin'
      · obtain ⟨rfl, h1⟩ := List.cons_prefix_cons.mp hpre
        have hp : u <+: b :: rest := splitOnSep_head_pre _ u us hs
        rcases u with _ | ⟨x, u'⟩
        · simp at h1
        · obtain ⟨rfl, _⟩ := List.cons_prefix_cons.mp h1
          obtain ⟨rfl, _⟩ := List.cons_prefix_cons.mp hp
          exact h ⟨rfl, rfl⟩
      · exact ih u (hs ▸ List.mem_cons_self u us) hin'
    · exact ih q (hs ▸ List.mem_cons_of_mem _ hq)

theorem escapeSep_eq_self (s : Str) (h : ¬ ([':', ':'] <:+: s)) : escapeSep s = s := by
  induction s using escapeSep.induct with
  | case1 => rfl
  | case2 c => rfl
  | case3 a b rest hab ih =>
    obtain ⟨rfl, rfl⟩ := hab
    exact absurd (List.IsPrefix.isInfix ⟨rest, rfl⟩) h
  | case4 a b rest hab ih =>
    rw [show escapeSep (a :: b :: rest) = a :: escapeSep (b :: rest) by simp [escapeSep, hab]]
    rw [ih (fun hin => h (List.infix_cons hin))]

theorem unescapeSep_eq_self (s : Str) (h : ¬ (['\\', ':', '\\', ':'] <:+: s)) :
    unescapeSep s = s := by
  induction s using unescapeSep.induct with
  | case1 a b c d rest habcd ih =>
    obtain ⟨rfl, rfl, rfl, rfl⟩ := habcd
    exact absurd (List.IsPrefix.isInfix ⟨rest, rfl⟩) h
  | case2 a b c d rest habcd ih =>
    rw [show unescapeSep (a :: b :: c :: d :: rest) = a :: unescapeSep (b :: c :: d :: rest) by
      simp [unescapeSep, habcd]]
    rw [ih (fun hin => h (List.infix_cons hin))]
  | case3 s hs =>
    rcases s with _ | ⟨a, _ | ⟨b, _ | ⟨c, _ | ⟨d, r⟩⟩⟩⟩
    · rfl
    · rfl
    · rfl
    · rfl
    · exact (hs a b c d r rfl).elim

theorem splitOnSep_single (p : Str) (h : ':' ∉ p) : splitOnSep p = [p] := by
  induction p using splitOnSep.induct with
  | case1 => rfl
  | case2 c => rfl
  | case3 a b rest hab ih =>
    obtain ⟨rfl, rfl⟩ := hab
    simp at h
  | case4 a b rest hab hs ih => exact absurd hs (splitOnSep_ne_nil _)
  | case5 a b rest hab u us hs ih =>
    have h' : ':' ∉ b :: rest := fun hm => h (List.mem_cons_of_mem a hm)
    rw [ih h'] at hs
    injection hs with h1 h2
    subst h1
    subst h2
    exact splitOnSep_cons_of_cons a b rest hab (b :: rest) [] (ih h')

theorem splitOnSep_append_sep (p t : Str) (h : ':' ∉ p) :
    splitOnSep (p ++ ':' :: ':' :: t) = p :: splitOnSep t := by
  induction p with
  | nil => simpa using splitOnSep_sep t
  | cons c p' ih =>
    have hc : c ≠ ':' := fun hcc => h (hcc ▸ List.mem_cons_self c p')
    have h' : ':' ∉ p' := fun hm => h (List.mem_cons_of_mem c hm)
    rcases p' with _ | ⟨c', p''⟩
    · rw [List.cons_append, List.nil_append]
      rw [splitOnSep_cons_of_cons c ':' (':' :: t) (fun hx => hc hx.1) [] (splitOnSep t)
        (splitOnSep_sep t)]
    · simp only [List.cons_append]
      have ih' := ih h'
      simp only [List.cons_append] at ih'
      rw [splitOnSep_cons_of_cons c c' (p'' ++ ':' :: ':' :: t) (fun hx => hc hx.1)
        (c' :: p'') (splitOnSep t) ih']

/-- Splitting the join of colon-free segments recovers the segments. -/
theorem splitOnSep_joinSep (k : List Str) (hne : k ≠ []) (hcf : ∀ p ∈ k, ':' ∉ p) :
    splitOnSep (joinSep k) = k := by
  induction k with
  | nil => exact absurd rfl hne
  | cons p k' ih =>
    rcases k' with _ | ⟨q, k''⟩
    · rw [show joinSep [p] = p from rfl]
      exact splitOnSep_single p (hcf p (List.mem_cons_self p []))
    · rw [show joinSep (p :: q :: k'') = p ++ ':' :: ':' :: joinSep (q :: k'') from rfl]
      rw [splitOnSep_append_sep p _ (hcf p (List.mem_cons_self p _))]
      rw [ih (by simp) (fun r hr => hcf r (List.mem_cons_of_mem p hr))]

theorem not_sep_infix_of_no_colon {s : Str} (h : ':' ∉ s) : ¬ ([':', ':'] <:+: s) :=
  fun hin => h (hin.subset (by simp))

theorem not_esc_infix_of_no_colon {s : Str} (h : ':' ∉ s) : ¬ (['\\', ':', '\\', ':'] <:+: s) :=
  fun hin => h (hin.subset (by simp))

theorem map_eq_self {α : Type} (f : α → α) :
    ∀ l : List α, (∀ a ∈ l, f a = a) → l.map f = l
  | [], _ => rfl
  | a :: l, h => by
    rw [List.map_cons, h a (List.mem_cons_self a l),
      map_eq_self f l (fun b hb => h b (List.mem_cons_of_mem a hb))]

/-- C1, counterexample: the claimed round-trip fails on the code as written.
Encoding the segment list ["a:", "b"] yields "a:::b", which decodes to
["a", ":b"]; and the string ":\:\:" decodes to [":::"], which re-encodes to
"\:\::". -/
theorem C1_key_codec_counterexample :
    newDbKeyFromStr (dbKeyString [lit "a:", lit "b"]) ≠ [lit "a:", lit "b"] ∧
    dbKeyString (newDbKeyFromStr (lit ":\\:\\:")) ≠ lit ":\\:\\:" := by
  constructor
  · decide
  · decide

/-- C1, amended: decode∘encode is the identity on every nonempty segment
list whose segments contain no ':' character, and encode∘decode is the
identity on every string none of whose split parts contains the escape
sequence "\:\:"; without these restrictions the round-trip fails. -/
theorem C1_key_codec_roundtrip :
    (∀ k : List Str, k ≠ [] → (∀ p ∈ k, ':' ∉ p) →
      newDbKeyFromStr (dbKeyString k) = k) ∧
    (∀ s : Str, (∀ p ∈ splitOnSep s, ¬ (['\\', ':', '\\', ':'] <:+: p)) →
      dbKeyString (newDbKeyFromStr s) = s) := by
  constructor
  · intro k hne hcf
    unfold dbKeyString newDbKeyFromStr
    rw [map_eq_self escapeSep k
      (fun p hp => escapeSep_eq_self p (not_sep_infix_of_no_colon (hcf p hp)))]
    rw [splitOnSep_joinSep k hne hcf]
    exact map_eq_self unescapeSep k
      (fun p hp => unescapeSep_eq_self p (not_esc_infix_of_no_colon (hcf p hp)))
  · intro s hs
    unfold newDbKeyFromStr dbKeyString
    rw [map_eq_self unescapeSep _ (fun p hp => unescapeSep_eq_self p (hs p hp))]
    rw [map_eq_self escapeSep _ (fun p hp => escapeSep_eq_self p (splitOnSep_no_sep s p hp))]
    exact joinSep_splitOnSep s

/-- Witness for `C1_key_codec_roundtrip` at concrete inputs. -/
theorem C1_key_codec_roundtrip_witness :
    newDbKeyFromStr (dbKeyString [lit "tag", lit "Qm1"]) = [lit "tag", lit "Qm1"] ∧
    dbKeyString (newDbKeyFromStr (lit "item::Qm1::name")) = lit "item::Qm1::name" :=
  ⟨C1_key_codec_roundtrip.1 [lit "tag", lit "Qm1"] (by decide) (by decide),
   C1_key_codec_roundtrip.2 (lit "item::Qm1::name") (by decide)⟩

/-! ### Store and key lemmas -/

theorem Store.get_set (s : Store) (k : Str) (v : Val) (k' : Str) :
    (s.set k v).get k' = if k = k' then some v else s.get k' := by
  induction s with
  | nil => simp [Store.set, Store.get]
  | cons kv rest ih =>
    obtain ⟨kk, vv⟩ := kv
    by_cases h1 : kk = k <;> by_cases h2 : kk = k' <;> by_cases h3 : k = k' <;>
      simp_all [Store.set, Store.get]

theorem Store.set_eq_of_get (s : Store) (k : Str) (v : Val) (h : s.get k = some v) :
    s.set k v = s := by
  induction s with
  | nil => simp [Store.get] at h
  | cons kv rest ih =>
    obtain ⟨kk, vv⟩ := kv
    by_cases h1 : kk = k <;> simp_all [Store.set, Store.get]

/-- Keys of the form `ns ++ "::" ++ rest` with distinct colon-free
namespaces: neither is a byte prefix of the other. -/
theorem ns_key_not_pre {n₁ n₂ : Str} (h₁ : ':' ∉ n₁) (h₂ : ':' ∉ n₂) (hne : n₁ ≠ n₂) :
    ∀ r₁ r₂ : Str, ¬ (n₁ ++ ':' :: ':' :: r₁ <+: n₂ ++ ':' :: ':' :: r₂) := by
  induction n₁ generalizing n₂ with
  | nil =>
    intro r₁ r₂ hp
    rcases n₂ with _ | ⟨b, m₂⟩
    · exact hne rfl
    · rw [List.nil_append, List.cons_append] at hp
      obtain ⟨hb, _⟩ := List.cons_prefix_cons.mp hp
      exact h₂ (hb ▸ List.mem_cons_self b m₂)
  | cons a m₁ ih =>
    intro r₁ r₂ hp
    rcases n₂ with _ | ⟨b, m₂⟩
    · rw [List.cons_append, List.nil_append] at hp
      obtain ⟨ha, _⟩ := List.cons_prefix_cons.mp hp
      exact h₁ (ha ▸ List.mem_cons_self a m₁)
    · rw [List.cons_append, List.cons_append] at hp
      obtain ⟨hab, htail⟩ := List.cons_prefix_cons.mp hp
      subst hab
      have hm : m₁ ≠ m₂ := fun hx => hne (by rw [hx])
      exact ih (fun hx => h₁ (List.mem_cons_of_mem a hx))
        (fun hx => h₂ (List.mem_cons_of_mem a hx)) hm r₁ r₂ htail

theorem ns_key_ne {n₁ n₂ : Str} (h₁ : ':' ∉ n₁) (h₂ : ':' ∉ n₂) (hne : n₁ ≠ n₂)
    (r₁ r₂ : Str) : n₁ ++ ':' :: ':' :: r₁ ≠ n₂ ++ ':' :: ':' :: r₂ :=
  fun h => ns_key_not_pre h₁ h₂ hne r₁ r₂ (h ▸ List.prefix_refl _)

theorem sep_tail_inj {n X Y : Str} (h : n ++ ':' :: ':' :: X = n ++ ':' :: ':' :: Y) :
    X = Y := by
  have h2 := List.append_cancel_left h
  injection h2 with _ h3
  injection h3

theorem key3_ne_of_ne {n a p q : Str} (hpq : p ≠ q) :
    n ++ ':' :: ':' :: (a ++ ':' :: ':' :: p) ≠ n ++ ':' :: ':' :: (a ++ ':' :: ':' :: q) :=
  fun h => hpq (sep_tail_inj (sep_tail_inj h))

theorem dbKeyString_cons_plain (x : Str) (hx : ':' ∉ x) (k : List Str) (hk : k ≠ []) :
    dbKeyString (x :: k) = x ++ ':' :: ':' :: dbKeyString k := by
  rcases k with _ | ⟨y, k'⟩
  · exact absurd rfl hk
  · show joinSep (escapeSep x :: escapeSep y :: k'.map escapeSep) = _
    rw [show joinSep (escapeSep x :: escapeSep y :: k'.map escapeSep)
      = escapeSep x ++ ':' :: ':' :: joinSep (escapeSep y :: k'.map escapeSep) from rfl]
    rw [escapeSep_eq_self x (not_sep_infix_of_no_colon hx)]
    rfl

theorem dbKeyString_one_plain (x : Str) (hx : ':' ∉ x) : dbKeyString [x] = x := by
  show joinSep [escapeSep x] = x
  rw [show joinSep [escapeSep x] = escapeSep x from rfl,
    escapeSep_eq_self x (not_sep_infix_of_no_colon hx)]

/-! ### C2: tag reference-count lifecycle -/

/-- C2: creating a fresh item via `CreateOrUpdateItem` with the distinct
tags T1, T2, T3 makes each tag's count read 1, with count key and registry
entry present; updating the item to drop T3 makes count(T3) read 0 with
T3's count key and registry entry deleted, and T3 is no longer returned by
`SearchTags`; adding T4 via `AddItemTag` creates its count key (value 1)
and registry entry, and removing it via `RemoveItemTag` returns count(T4)
to 0 with both keys deleted — deletion happening exactly at the
transitions to zero. -/
theorem C2_tag_refcount_lifecycle :
    (CreateOrUpdateItem [] C2_itemV1).1 = none ∧
    ReadTagItemCount C2_s1 [tagT1, tagT2, tagT3] = .ok [1, 1, 1] ∧
    C2_s1.get (dbKeyString [lit "tag", tagString tagT3, lit "count"]) = some (.num 1) ∧
    C2_s1.get (dbKeyString [lit "tags", tagString tagT3]) = some (.str (tagString tagT3)) ∧
    (CreateOrUpdateItem C2_s1 C2_itemV2).1 = none ∧
    ReadTagItemCount C2_s2 [tagT3] = .ok [0] ∧
    SearchTags C2_s2 (tagString tagT3) = .ok [] ∧
    C2_s2.get (dbKeyString [lit "tag", tagString tagT3, lit "count"]) = none ∧
    C2_s2.get (dbKeyString [lit "tags", tagString tagT3]) = none ∧
    (AddItemTag C2_s2 (lit "c1") tagT4).1 = none ∧
    ReadTagItemCount C2_s3 [tagT4] = .ok [1] ∧
    C2_s3.get (dbKeyString [lit "tag", tagString tagT4, lit "count"]) = some (.num 1) ∧
    C2_s3.get (dbKeyString [lit "tags", tagString tagT4]) = some (.str (tagString tagT4)) ∧
    (RemoveItemTag C2_s3 (lit "c1") tagT4).1 = none ∧
    ReadTagItemCount C2_s4 [tagT4] = .ok [0] ∧
    C2_s4.get (dbKeyString [lit "tag", tagString tagT4, lit "count"]) = none ∧
    C2_s4.get (dbKeyString [lit "tags", tagString tagT4]) = none := by
  decide

/-! ### C3: decrement below zero -/

/-- C3, divergence: `RemoveItemTag` on an existing item for a tag that has
no stored count entry succeeds and silently writes a count of 1
(`updateTagItemCount` sets `c = 1` whenever the count key is absent,
regardless of the sign of `diff`), instead of reporting
`ErrNegativeTagItemCount` as the claim requires. -/
theorem C3_decrement_missing_count_writes_one :
    C3_r.1 = none ∧
    C3_r.1 ≠ some Err.NegativeTagItemCount ∧
    C3_r.2.get (dbKeyString [lit "tag", lit "t", lit "count"]) = some (.num 1) := by
  decide

/-! ### C4: folder/collection membership coupling -/

/-- C4, counterexample: an item whose only folder membership is the root
folder, removed from it via `RemoveItemFromFolder`, is still reported as a
member of the collection (`IsItemInCollection` returns true, not false as
the claim states): `RemoveItemFromFolder` deletes only the
`item_folder`/`folder_item` pair and never touches collection
membership. -/
theorem C4_remove_from_folder_counterexample :
    C4_r.1 = none ∧
    IsItemInFolder C4_r.2 (lit "c1") rootF = .ok false ∧
    IsItemInCollection C4_r.2 (lit "c1") adr = .ok true := by
  decide

/-- C4, amended: `RemoveItemFromFolder` removes only the folder
membership and leaves the item a member of the collection; the
last-folder coupling belongs to folder deletion: `DelFolder` on the
item's only folder also removes the item from the collection. -/
theorem C4_membership_coupling_amended :
    IsItemInCollection C4_r.2 (lit "c1") adr = .ok true ∧
    IsItemInFolder C4_r.2 (lit "c1") rootF = .ok false ∧
    C4_rd.1 = none ∧
    IsItemInCollection C4_rd.2 (lit "c1") adr = .ok false := by
  decide

/-! ### C5: collection deletion -/

/-- C5, divergence: `DelCollection` on an existing owned collection with
one member item removes the registry key, the `collection::` attributes,
the `collection_item` entry, the `folders::`/`folder::` namespaces and the
item's `item_collection`/`item_folder` back-references, and the item
itself remains readable — but the owned-index entry `collections_mine::`
and the `folder_item::` entries survive, although the claim (and the
spec) say they are removed. -/
theorem C5_del_collection_leaves_entries :
    C5_r.1 = none ∧
    C5_r.2.get (dbKeyString [lit "collections", adr]) = none ∧
    C5_r.2.get (dbKeyString [lit "collection", adr, lit "name"]) = none ∧
    C5_r.2.get (dbKeyString [lit "collection", adr, lit "description"]) = none ∧
    C5_r.2.get (dbKeyString [lit "collection", adr, lit "ismine"]) = none ∧
    C5_r.2.get (dbKeyString [lit "collection_item", adr, lit "c1"]) = none ∧
    C5_r.2.get (dbKeyString [lit "folders", adr, []]) = none ∧
    C5_r.2.get (dbKeyString [lit "item_collection", lit "c1", adr]) = none ∧
    C5_r.2.get (dbKeyString [lit "item_folder", lit "c1", adr, []]) = none ∧
    ReadItem C5_r.2 (lit "c1") = .ok { CID := lit "c1", Name := lit "n", Tags := [] } ∧
    C5_r.2.get (dbKeyString [lit "collections_mine", adr]) = some (.str adr) ∧
    C5_r.2.get (dbKeyString [lit "folder_item", adr, [], lit "c1"]) = some (.str (lit "c1")) := by
  decide

/-! ### C6: move versus copy of a folder -/

/-- C6: the copy direction behaves as claimed — copying folder "a" (item
i1, subfolder "a/b" with item i2) to "a-copy" duplicates the folder
markers, folder_item entries and children list under "a-copy" and leaves
the source keys untouched.  The move direction diverges: after
`MoveOrCopyFolder(a, a-copy, copy=false)` the source subtree is gone, but
the delete-source step (`DelFolder`'s `dropPrefix` on the byte prefixes
`folder_item::test::a` and `folder::test::a`, which are prefixes of the
"a-copy" keys as well) has also destroyed the copied content: "a-copy"
has no `folder_item` entries and no children list, and the
`item_folder::i1::test::a-copy` back-reference dangles. -/
theorem C6_move_copy_folder :
    C6_copy.1 = none ∧
    C6_copy.2.get (dbKeyString [lit "folders", adr, lit "a-copy"]) = some (.str (lit "a-copy")) ∧
    C6_copy.2.get (dbKeyString [lit "folder_item", adr, lit "a-copy", lit "i1"])
      = some (.str (lit "i1")) ∧
    C6_copy.2.get (dbKeyString [lit "folders", adr, lit "a-copy/b"])
      = some (.str (lit "a-copy/b")) ∧
    C6_copy.2.get (dbKeyString [lit "folder_item", adr, lit "a-copy/b", lit "i2"])
      = some (.str (lit "i2")) ∧
    C6_copy.2.get (dbKeyString [lit "folder", adr, lit "a-copy", lit "children"])
      = some (.strList [lit "a-copy/b"]) ∧
    C6_copy.2.get (dbKeyString [lit "folders", adr, lit "a"]) = some (.str (lit "a")) ∧
    C6_copy.2.get (dbKeyString [lit "folder_item", adr, lit "a", lit "i1"])
      = some (.str (lit "i1")) ∧
    C6_copy.2.get (dbKeyString [lit "folders", adr, lit "a/b"]) = some (.str (lit "a/b")) ∧
    C6_copy.2.get (dbKeyString [lit "folder_item", adr, lit "a/b", lit "i2"])
      = some (.str (lit "i2")) ∧
    C6_copy.2.get (dbKeyString [lit "folder", adr, lit "a", lit "children"])
      = some (.strList [lit "a/b"]) ∧
    C6_move.1 = none ∧
    C6_move.2.get (dbKeyString [lit "folders", adr, lit "a"]) = none ∧
    C6_move.2.get (dbKeyString [lit "folders", adr, lit "a/b"]) = none ∧
    C6_move.2.get (dbKeyString [lit "folders", adr, lit "a-copy"])
      = some (.str (lit "a-copy")) ∧
    C6_move.2.get (dbKeyString [lit "folder_item", adr, lit "a-copy", lit "i1"]) = none ∧
    C6_move.2.get (dbKeyString [lit "folder", adr, lit "a-copy", lit "children"]) = none ∧
    C6_move.2.get (dbKeyString [lit "folder_item", adr, lit "a-copy/b", lit "i2"]) = none ∧
    C6_move.2.get (dbKeyString [lit "item_folder", lit "i1", adr, lit "a-copy"])
      = some (.str (lit "a-copy")) := by
  decide

/-! ### Folder path lemmas -/

theorem splitChar_ne_nil (c : Char) (s : Str) : splitChar c s ≠ [] := by
  induction s with
  | nil => simp [splitChar]
  | cons a rest ih =>
    by_cases h : a = c
    · simp [splitChar, h]
    · simp only [splitChar, if_neg h]
      rcases hs : splitChar c rest with _ | ⟨p, ps⟩
      · simp
      · simp

theorem splitChar_cons_of_cons (c a : Char) (rest : Str) (h : a ≠ c)
    (p : Str) (ps : List Str) (hs : splitChar c rest = p :: ps) :
    splitChar c (a :: rest) = (a :: p) :: ps := by
  simp [splitChar, if_neg h, hs]

theorem joinChar_cons_cons (c a : Char) (p : Str) (ps : List Str) :
    joinChar c ((a :: p) :: ps) = a :: joinChar c (p :: ps) := by
  cases ps <;> simp [joinChar]

theorem joinChar_splitChar (c : Char) (s : Str) : joinChar c (splitChar c s) = s := by
  induction s with
  | nil => rfl
  | cons a rest ih =>
    by_cases h : a = c
    · subst h
      rw [show splitChar a (a :: rest) = [] :: splitChar a rest by simp [splitChar]]
      rcases hs : splitChar a rest with _ | ⟨p, ps⟩
      · exact absurd hs (splitChar_ne_nil a rest)
      · rw [hs] at ih
        rw [show joinChar a ([] :: p :: ps) = a :: joinChar a (p :: ps) by simp [joinChar]]
        rw [ih]
    · rcases hs : splitChar c rest with _ | ⟨p, ps⟩
      · exact absurd hs (splitChar_ne_nil c rest)
      · rw [hs] at ih
        rw [splitChar_cons_of_cons c a rest h p ps hs, joinChar_cons_cons, ih]

theorem joinChar_append_last (c : Char) :
    ∀ (q : List Str) (x : Str), q ≠ [] → joinChar c (q ++ [x]) = joinChar c q ++ c :: x
  | [], _, h => absurd rfl h
  | [p], x, _ => by simp [joinChar]
  | p :: p2 :: q, x, _ => by
    rw [show (p :: p2 :: q) ++ [x] = p :: ((p2 :: q) ++ [x]) from rfl]
    rw [show joinChar c (p :: ((p2 :: q) ++ [x]))
      = p ++ c :: joinChar c ((p2 :: q) ++ [x]) from rfl]
    rw [joinChar_append_last c (p2 :: q) x (by simp)]
    simp [joinChar]

theorem path_parent_decomp (f : Folder) (h : f.ParentPath ≠ []) :
    ∃ x : Str, f.Path = f.ParentPath ++ '/' :: x := by
  have hne : splitChar '/' f.Path ≠ [] := splitChar_ne_nil _ _
  have hlen : (splitChar '/' f.Path).length ≠ 1 := by
    intro hx
    exact h (by simp [Folder.ParentPath, hx])
  have hdrop : (splitChar '/' f.Path).dropLast ≠ [] := by
    rcases hc : splitChar '/' f.Path with _ | ⟨p, _ | ⟨q, r⟩⟩
    · exact absurd hc hne
    · exact absurd (by rw [hc]; rfl) hlen
    · simp
  refine ⟨(splitChar '/' f.Path).getLast hne, ?_⟩
  have hpp : f.ParentPath = joinChar '/' (splitChar '/' f.Path).dropLast := by
    simp [Folder.ParentPath, hlen]
  have hp : f.Path = joinChar '/' (splitChar '/' f.Path) :=
    (joinChar_splitChar '/' f.Path).symm
  rw [hpp]
  conv_lhs => rw [hp]
  rw [← joinChar_append_last '/' (splitChar '/' f.Path).dropLast _ hdrop]
  rw [List.dropLast_append_getLast hne]

theorem Path_ne_ParentPath (f : Folder) (h : f.ParentPath ≠ []) :
    f.Path ≠ f.ParentPath := by
  obtain ⟨x, hx⟩ := path_parent_decomp f h
  intro he
  rw [he] at hx
  have := congrArg List.length hx
  simp at this

theorem Path_ne_nil_of_parent (f : Folder) (h : f.ParentPath ≠ []) : f.Path ≠ [] := by
  obtain ⟨x, hx⟩ := path_parent_decomp f h
  intro he
  rw [he] at hx
  have := congrArg List.length hx
  simp at this
  omega

theorem ParentPath_no_colon (f : Folder) (hp : ':' ∉ f.Path) : ':' ∉ f.ParentPath := by
  by_cases h : f.ParentPath = []
  · simp [h]
  · obtain ⟨x, hx⟩ := path_parent_decomp f h
    intro hc
    exact hp (hx ▸ List.mem_append.mpr (Or.inl hc))


/-! ### C7: folder creation parent checks -/

theorem createOrUpdateFolder_parent_missing (s : Store) (f : Folder)
    (hip : ':' ∉ f.IPNSAddress) (hpa : ':' ∉ f.Path)
    (hchk : checkIPNS s f.IPNSAddress = none)
    (hpp : f.ParentPath ≠ [])
    (hpe : s.get (dbKeyString [lit "folders", f.IPNSAddress, f.ParentPath]) = none) :
    CreateOrUpdateFolder s f = (some .ParentFolderNotExists, s) := by
  have hipne : f.IPNSAddress ≠ [] := by
    intro hx
    simp [checkIPNS, if_pos hx] at hchk
  have hppc : ':' ∉ f.ParentPath := ParentPath_no_colon f hpa
  have hkm : dbKeyString [lit "folders", f.IPNSAddress, f.Path]
      = lit "folders" ++ ':' :: ':' :: (f.IPNSAddress ++ ':' :: ':' :: f.Path) := by
    rw [dbKeyString_cons_plain _ (by decide) _ (by simp),
        dbKeyString_cons_plain _ hip _ (by simp),
        dbKeyString_one_plain _ hpa]
  have hkp : dbKeyString [lit "folders", f.IPNSAddress, f.ParentPath]
      = lit "folders" ++ ':' :: ':' :: (f.IPNSAddress ++ ':' :: ':' :: f.ParentPath) := by
    rw [dbKeyString_cons_plain _ (by decide) _ (by simp),
        dbKeyString_cons_plain _ hip _ (by simp),
        dbKeyString_one_plain _ hppc]
  have hne : dbKeyString [lit "folders", f.IPNSAddress, f.Path]
      ≠ dbKeyString [lit "folders", f.IPNSAddress, f.ParentPath] := by
    rw [hkm, hkp]
    exact key3_ne_of_ne (Path_ne_ParentPath f hpp)
  have hbody : createOrUpdateFolderInTxn s s f = .error Err.ParentFolderNotExists := by
    have hroot : ¬ (f.Path = [] ∧ f.ParentPath = []) := fun hx => hpp hx.2
    simp only [createOrUpdateFolderInTxn, if_neg hroot, assertParentInTxn, if_neg hpp,
      isFolderPathExistsInTxn, hchk, Store.get_set, if_neg hne, hpe]
    simp
  simp only [CreateOrUpdateFolder, if_neg hipne, hchk, dbUpdate, hbody]


theorem createOrUpdateFolder_root_autocreate (s : Store) (f : Folder)
    (hip : ':' ∉ f.IPNSAddress) (hpa : ':' ∉ f.Path)
    (hchk : checkIPNS s f.IPNSAddress = none)
    (hpne : f.Path ≠ []) (hpp : f.ParentPath = [])
    (hre : s.get (dbKeyString [lit "folders", f.IPNSAddress, []]) = none)
    (hck : s.get (dbKeyString [lit "folder", f.IPNSAddress, [], lit "children"]) = none ∨
      ∃ l, s.get (dbKeyString [lit "folder", f.IPNSAddress, [], lit "children"])
        = some (.strList l)) :
    (CreateOrUpdateFolder s f).1 = none ∧
    (CreateOrUpdateFolder s f).2.get (dbKeyString [lit "folders", f.IPNSAddress, []])
      = some (.str []) := by
  have hipne : f.IPNSAddress ≠ [] := by
    intro hx
    simp [checkIPNS, if_pos hx] at hchk
  have hkm : dbKeyString [lit "folders", f.IPNSAddress, f.Path]
      = lit "folders" ++ ':' :: ':' :: (f.IPNSAddress ++ ':' :: ':' :: f.Path) := by
    rw [dbKeyString_cons_plain _ (by decide) _ (by simp),
        dbKeyString_cons_plain _ hip _ (by simp),
        dbKeyString_one_plain _ hpa]
  have hkr : dbKeyString [lit "folders", f.IPNSAddress, []]
      = lit "folders" ++ ':' :: ':' :: (f.IPNSAddress ++ ':' :: ':' :: []) := by
    rw [dbKeyString_cons_plain _ (by decide) _ (by simp),
        dbKeyString_cons_plain _ hip _ (by simp),
        dbKeyString_one_plain _ (by simp)]
  have hkc : dbKeyString [lit "folder", f.IPNSAddress, [], lit "children"]
      = lit "folder" ++ ':' :: ':' :: (f.IPNSAddress ++ ':' :: ':'
          :: ([] ++ ':' :: ':' :: lit "children")) := by
    rw [dbKeyString_cons_plain _ (by decide) _ (by simp),
        dbKeyString_cons_plain _ hip _ (by simp),
        dbKeyString_cons_plain _ (by simp) _ (by simp),
        dbKeyString_one_plain _ (by decide)]
  have hmr : dbKeyString [lit "folders", f.IPNSAddress, f.Path]
      ≠ dbKeyString [lit "folders", f.IPNSAddress, []] := by
    rw [hkm, hkr]
    exact key3_ne_of_ne hpne
  have hmc : dbKeyString [lit "folders", f.IPNSAddress, f.Path]
      ≠ dbKeyString [lit "folder", f.IPNSAddress, [], lit "children"] := by
    rw [hkm, hkc]
    exact ns_key_ne (by decide) (by decide) (by decide) _ _
  have hrc : dbKeyString [lit "folders", f.IPNSAddress, []]
      ≠ dbKeyString [lit "folder", f.IPNSAddress, [], lit "children"] := by
    rw [hkr, hkc]
    exact ns_key_ne (by decide) (by decide) (by decide) _ _
  have hroot : ¬ (f.Path = [] ∧ f.ParentPath = []) := fun hx => hpne hx.1
  rcases hck with hck | ⟨l, hck⟩
  · have hbody : createOrUpdateFolderInTxn s s f = .ok
        (((s.set (dbKeyString [lit "folders", f.IPNSAddress, f.Path]) (.str f.Path)).set
          (dbKeyString [lit "folders", f.IPNSAddress, []]) (.str [])).set
          (dbKeyString [lit "folder", f.IPNSAddress, [], lit "children"])
          (.strList [f.Path])) := by
      simp only [createOrUpdateFolderInTxn, if_neg hpne, assertParentInTxn, hpp,
        isFolderPathExistsInTxn, hchk, Store.get_set, if_neg hmr, hre]
      simp only [and_true, Bool.not_false, if_true, if_neg hpne]
      rw [Store.get_set, if_neg hrc, Store.get_set, if_neg hmc, hck]
    constructor
    · simp only [CreateOrUpdateFolder, if_neg hipne, hchk, dbUpdate, hbody]
    · simp only [CreateOrUpdateFolder, if_neg hipne, hchk, dbUpdate, hbody]
      rw [Store.get_set, if_neg (Ne.symm hrc), Store.get_set, if_pos rfl]
  · have hbody : createOrUpdateFolderInTxn s s f = .ok
        (((s.set (dbKeyString [lit "folders", f.IPNSAddress, f.Path]) (.str f.Path)).set
          (dbKeyString [lit "folders", f.IPNSAddress, []]) (.str [])).set
          (dbKeyString [lit "folder", f.IPNSAddress, [], lit "children"])
          (.strList (l ++ [f.Path]))) := by
      simp only [createOrUpdateFolderInTxn, if_neg hpne, assertParentInTxn, hpp,
        isFolderPathExistsInTxn, hchk, Store.get_set, if_neg hmr, hre]
      simp only [and_true, Bool.not_false, if_true, if_neg hpne]
      rw [Store.get_set, if_neg hrc, Store.get_set, if_neg hmc, hck]
    constructor
    · simp only [CreateOrUpdateFolder, if_neg hipne, hchk, dbUpdate, hbody]
    · simp only [CreateOrUpdateFolder, if_neg hipne, hchk, dbUpdate, hbody]
      rw [Store.get_set, if_neg (Ne.symm hrc), Store.get_set, if_pos rfl]


/-- C7: creating a folder whose immediate parent path is non-root and
absent fails with `ParentFolderNotExists` and leaves the store unchanged
(the marker written inside the transaction before the parent check is
rolled back); if the immediate parent is root and root does not yet
exist, root is silently created and the call succeeds.  Stated for
identifier and path strings free of the key-separator character ':'. -/
theorem C7_folder_parent_check :
    (∀ (s : Store) (f : Folder), ':' ∉ f.IPNSAddress → ':' ∉ f.Path →
      checkIPNS s f.IPNSAddress = none → f.ParentPath ≠ [] →
      s.get (dbKeyString [lit "folders", f.IPNSAddress, f.ParentPath]) = none →
      CreateOrUpdateFolder s f = (some .ParentFolderNotExists, s)) ∧
    (∀ (s : Store) (f : Folder), ':' ∉ f.IPNSAddress → ':' ∉ f.Path →
      checkIPNS s f.IPNSAddress = none → f.Path ≠ [] → f.ParentPath = [] →
      s.get (dbKeyString [lit "folders", f.IPNSAddress, []]) = none →
      (s.get (dbKeyString [lit "folder", f.IPNSAddress, [], lit "children"]) = none ∨
        ∃ l, s.get (dbKeyString [lit "folder", f.IPNSAddress, [], lit "children"])
          = some (.strList l)) →
      (CreateOrUpdateFolder s f).1 = none ∧
      (CreateOrUpdateFolder s f).2.get (dbKeyString [lit "folders", f.IPNSAddress, []])
        = some (.str [])) :=
  ⟨createOrUpdateFolder_parent_missing, createOrUpdateFolder_root_autocreate⟩

/-- Witness for `C7_folder_parent_check` at a concrete store. -/
theorem C7_folder_parent_check_witness :
    CreateOrUpdateFolder C7_ws { IPNSAddress := lit "test", Path := lit "x/y" }
      = (some .ParentFolderNotExists, C7_ws) ∧
    (CreateOrUpdateFolder C7_ws { IPNSAddress := lit "test", Path := lit "x" }).1 = none ∧
    (CreateOrUpdateFolder C7_ws { IPNSAddress := lit "test", Path := lit "x" }).2.get
      (dbKeyString [lit "folders", lit "test", []]) = some (.str []) :=
  ⟨C7_folder_parent_check.1 C7_ws { IPNSAddress := lit "test", Path := lit "x/y" }
      (by decide) (by decide) (by decide) (by decide) (by decide),
   (C7_folder_parent_check.2 C7_ws { IPNSAddress := lit "test", Path := lit "x" }
      (by decide) (by decide) (by decide) (by decide) (by decide) (by decide)
      (Or.inl (by decide))).1,
   (C7_folder_parent_check.2 C7_ws { IPNSAddress := lit "test", Path := lit "x" }
      (by decide) (by decide) (by decide) (by decide) (by decide) (by decide)
      (Or.inl (by decide))).2⟩


/-! ### C8: what is appended to the parent children list -/

theorem Store.get_set_ne {k k' : Str} (s : Store) (v : Val) (h : k ≠ k') :
    (s.set k v).get k' = s.get k' := by rw [Store.get_set, if_neg h]

theorem Store.get_set_self (s : Store) (k : Str) (v : Val) :
    (s.set k v).get k = some v := by rw [Store.get_set, if_pos rfl]



/-- C8, counterexample: after creating folders "a" and "a/b", the children
list of "a" holds the full path "a/b", not the basename "b" that the claim
says is appended. -/
theorem C8_children_basename_counterexample :
    ReadFolderChildren C6_s9 C6_fa = .ok [lit "a/b"] ∧
    Folder.Basename C6_fab = lit "b" ∧
    ReadFolderChildren C6_s9 C6_fa ≠ .ok [Folder.Basename C6_fab] := by
  decide

/-- C8, amended: for every successfully created non-root folder, the entry
appended to its parent's children list is the folder's full `Path` (of
which the basename is only the last '/'-separated segment).  Stated for
identifier and path strings free of ':'. -/
theorem C8_children_append_path (snap txn : Store) (f : Folder) (t : Store) (l : List Str)
    (hip : ':' ∉ f.IPNSAddress) (hpa : ':' ∉ f.Path) (hnr : f.Path ≠ [])
    (hck : txn.get (dbKeyString [lit "folder", f.IPNSAddress, f.ParentPath, lit "children"])
        = some (.strList l) ∨
      (txn.get (dbKeyString [lit "folder", f.IPNSAddress, f.ParentPath, lit "children"])
        = none ∧ l = []))
    (hok : createOrUpdateFolderInTxn snap txn f = .ok t) :
    t.get (dbKeyString [lit "folder", f.IPNSAddress, f.ParentPath, lit "children"])
      = some (.strList (l ++ [f.Path])) := by
  have hppc : ':' ∉ f.ParentPath := ParentPath_no_colon f hpa
  have hkm : dbKeyString [lit "folders", f.IPNSAddress, f.Path]
      = lit "folders" ++ ':' :: ':' :: (f.IPNSAddress ++ ':' :: ':' :: f.Path) := by
    rw [dbKeyString_cons_plain _ (by decide) _ (by simp),
        dbKeyString_cons_plain _ hip _ (by simp),
        dbKeyString_one_plain _ hpa]
  have hkr : dbKeyString [lit "folders", f.IPNSAddress, []]
      = lit "folders" ++ ':' :: ':' :: (f.IPNSAddress ++ ':' :: ':' :: []) := by
    rw [dbKeyString_cons_plain _ (by decide) _ (by simp),
        dbKeyString_cons_plain _ hip _ (by simp),
        dbKeyString_one_plain _ (by simp)]
  have hkc : dbKeyString [lit "folder", f.IPNSAddress, f.ParentPath, lit "children"]
      = lit "folder" ++ ':' :: ':' :: (f.IPNSAddress ++ ':' :: ':'
          :: (f.ParentPath ++ ':' :: ':' :: lit "children")) := by
    rw [dbKeyString_cons_plain _ (by decide) _ (by simp),
        dbKeyString_cons_plain _ hip _ (by simp),
        dbKeyString_cons_plain _ hppc _ (by simp),
        dbKeyString_one_plain _ (by decide)]
  have hmc : dbKeyString [lit "folders", f.IPNSAddress, f.Path]
      ≠ dbKeyString [lit "folder", f.IPNSAddress, f.ParentPath, lit "children"] := by
    rw [hkm, hkc]
    exact ns_key_ne (by decide) (by decide) (by decide) _ _
  have hrc : dbKeyString [lit "folders", f.IPNSAddress, []]
      ≠ dbKeyString [lit "folder", f.IPNSAddress, f.ParentPath, lit "children"] := by
    rw [hkr, hkc]
    exact ns_key_ne (by decide) (by decide) (by decide) _ _
  -- whatever transaction state assertParentInTxn returns on success, it
  -- reads the children key just as `txn` does
  have hassert : ∀ t', assertParentInTxn snap
      (txn.set (dbKeyString [lit "folders", f.IPNSAddress, f.Path]) (.str f.Path)) f = .ok t' →
      t'.get (dbKeyString [lit "folder", f.IPNSAddress, f.ParentPath, lit "children"])
        = txn.get (dbKeyString [lit "folder", f.IPNSAddress, f.ParentPath, lit "children"]) := by
    intro t' hap
    unfold assertParentInTxn at hap
    split at hap
    · split at hap
      · exact absurd hap (by simp)
      · split at hap
        · injection hap with h
          subst h
          rw [Store.get_set_ne _ _ hrc, Store.get_set_ne _ _ hmc]
        · injection hap with h
          subst h
          rw [Store.get_set_ne _ _ hmc]
    · split at hap
      · exact absurd hap (by simp)
      · split at hap
        · exact absurd hap (by simp)
        · injection hap with h
          subst h
          rw [Store.get_set_ne _ _ hmc]
  have hroot : ¬ (f.Path = [] ∧ f.ParentPath = []) := fun hx => hnr hx.1
  unfold createOrUpdateFolderInTxn at hok
  rw [if_neg hroot] at hok
  split at hok
  · exact absurd hok (by simp)
  · next t2 heq =>
    have ht2 := hassert t2 heq
    dsimp only at hok
    split at hok
    · next hgn =>
      rcases hck with hcv | ⟨hcv, hl⟩
      · rw [ht2] at hgn
        rw [hgn] at hcv
        exact absurd hcv (by simp)
      · injection hok with h
        subst h
        subst hl
        rw [Store.get_set_self]
        simp
    · next children hgs =>
      rw [ht2] at hgs
      rcases hck with hcv | ⟨hcv, hl⟩
      · rw [hgs] at hcv
        injection hcv with h
        injection h with h2
        subst h2
        injection hok with h
        subst h
        rw [Store.get_set_self]
      · rw [hgs] at hcv
        exact absurd hcv (by simp)
    · exact absurd hok (by simp)


/-- Witness for `C8_children_append_path` at a concrete transaction. -/
theorem C8_children_append_path_witness :
    C8w_t.get (dbKeyString [lit "folder", lit "test",
      Folder.ParentPath { IPNSAddress := lit "test", Path := lit "x" }, lit "children"])
      = some (.strList ([] ++ [lit "x"])) :=
  C8_children_append_path C8w_s C8w_s { IPNSAddress := lit "test", Path := lit "x" }
    C8w_t [] (by decide) (by decide) (by decide) (Or.inr ⟨by decide, rfl⟩) (by decide)

/-! ### C9: the owned-index entry -/

theorem six_sets_idem (s : Store) (k1 k2 k3 kM k4 kR : Str) (v1 v2 v3 vM v4 vR : Val)
    (n21 : k2 ≠ k1) (n31 : k3 ≠ k1) (nM1 : kM ≠ k1) (n41 : k4 ≠ k1) (nR1 : kR ≠ k1)
    (n32 : k3 ≠ k2) (nM2 : kM ≠ k2) (n42 : k4 ≠ k2) (nR2 : kR ≠ k2)
    (nM3 : kM ≠ k3) (n43 : k4 ≠ k3) (nR3 : kR ≠ k3)
    (n4M : k4 ≠ kM) (nRM : kR ≠ kM) (nR4 : kR ≠ k4) :
    (((((((((((s.set k1 v1).set k2 v2).set k3 v3).set kM vM).set k4 v4).set kR vR).set
      k1 v1).set k2 v2).set k3 v3).set kM vM).set k4 v4).set kR vR
      = (((((s.set k1 v1).set k2 v2).set k3 v3).set kM vM).set k4 v4).set kR vR := by
  have g1 : ((((((s.set k1 v1).set k2 v2).set k3 v3).set kM vM).set k4 v4).set kR vR).get k1
      = some v1 := by
    rw [Store.get_set_ne _ _ nR1, Store.get_set_ne _ _ n41, Store.get_set_ne _ _ nM1,
      Store.get_set_ne _ _ n31, Store.get_set_ne _ _ n21, Store.get_set_self]
  have g2 : ((((((s.set k1 v1).set k2 v2).set k3 v3).set kM vM).set k4 v4).set kR vR).get k2
      = some v2 := by
    rw [Store.get_set_ne _ _ nR2, Store.get_set_ne _ _ n42, Store.get_set_ne _ _ nM2,
      Store.get_set_ne _ _ n32, Store.get_set_self]
  have g3 : ((((((s.set k1 v1).set k2 v2).set k3 v3).set kM vM).set k4 v4).set kR vR).get k3
      = some v3 := by
    rw [Store.get_set_ne _ _ nR3, Store.get_set_ne _ _ n43, Store.get_set_ne _ _ nM3,
      Store.get_set_self]
  have gM : ((((((s.set k1 v1).set k2 v2).set k3 v3).set kM vM).set k4 v4).set kR vR).get kM
      = some vM := by
    rw [Store.get_set_ne _ _ nRM, Store.get_set_ne _ _ n4M, Store.get_set_self]
  have g4 : ((((((s.set k1 v1).set k2 v2).set k3 v3).set kM vM).set k4 v4).set kR vR).get k4
      = some v4 := by
    rw [Store.get_set_ne _ _ nR4, Store.get_set_self]
  have gR : ((((((s.set k1 v1).set k2 v2).set k3 v3).set kM vM).set k4 v4).set kR vR).get kR
      = some vR := Store.get_set_self _ _ _
  rw [Store.set_eq_of_get _ k1 v1 g1, Store.set_eq_of_get _ k2 v2 g2,
    Store.set_eq_of_get _ k3 v3 g3, Store.set_eq_of_get _ kM vM gM,
    Store.set_eq_of_get _ k4 v4 g4, Store.set_eq_of_get _ kR vR gR]

theorem five_sets_idem (s : Store) (k1 k2 k3 k4 kR : Str) (v1 v2 v3 v4 vR : Val)
    (n21 : k2 ≠ k1) (n31 : k3 ≠ k1) (n41 : k4 ≠ k1) (nR1 : kR ≠ k1)
    (n32 : k3 ≠ k2) (n42 : k4 ≠ k2) (nR2 : kR ≠ k2)
    (n43 : k4 ≠ k3) (nR3 : kR ≠ k3) (nR4 : kR ≠ k4) :
    (((((((((s.set k1 v1).set k2 v2).set k3 v3).set k4 v4).set kR vR).set
      k1 v1).set k2 v2).set k3 v3).set k4 v4).set kR vR
      = ((((s.set k1 v1).set k2 v2).set k3 v3).set k4 v4).set kR vR := by
  have g1 : (((((s.set k1 v1).set k2 v2).set k3 v3).set k4 v4).set kR vR).get k1
      = some v1 := by
    rw [Store.get_set_ne _ _ nR1, Store.get_set_ne _ _ n41,
      Store.get_set_ne _ _ n31, Store.get_set_ne _ _ n21, Store.get_set_self]
  have g2 : (((((s.set k1 v1).set k2 v2).set k3 v3).set k4 v4).set kR vR).get k2
      = some v2 := by
    rw [Store.get_set_ne _ _ nR2, Store.get_set_ne _ _ n42,
      Store.get_set_ne _ _ n32, Store.get_set_self]
  have g3 : (((((s.set k1 v1).set k2 v2).set k3 v3).set k4 v4).set kR vR).get k3
      = some v3 := by
    rw [Store.get_set_ne _ _ nR3, Store.get_set_ne _ _ n43, Store.get_set_self]
  have g4 : (((((s.set k1 v1).set k2 v2).set k3 v3).set k4 v4).set kR vR).get k4
      = some v4 := by
    rw [Store.get_set_ne _ _ nR4, Store.get_set_self]
  have gR : (((((s.set k1 v1).set k2 v2).set k3 v3).set k4 v4).set kR vR).get kR
      = some vR := Store.get_set_self _ _ _
  rw [Store.set_eq_of_get _ k1 v1 g1, Store.set_eq_of_get _ k2 v2 g2,
    Store.set_eq_of_get _ k3 v3 g3, Store.set_eq_of_get _ k4 v4 g4,
    Store.set_eq_of_get _ kR vR gR]


/-- C9, counterexample: re-applying `CreateOrUpdateCollection` with the
owned flag turned false on a previously owned collection does not remove
the `collections_mine` entry: afterwards the entry still exists while the
stored flag is "0", so the claimed "entry exists iff flag is true" fails. -/
theorem C9_owned_index_counterexample :
    (CreateOrUpdateCollection C9_s1 C9_cF).1 = none ∧
    C9_cF.IsMine = false ∧
    C9_s2.get (dbKeyString [lit "collection", adr, lit "ismine"]) = some (.str ['0']) ∧
    C9_s2.get (dbKeyString [lit "collections_mine", adr]) = some (.str adr) := by
  decide

/-- C9, amended: `CreateOrUpdateCollection` creates the owned-index entry
when the flag is true, and leaves the entry exactly as it was (in
particular, it does not delete a stale one) when the flag is false;
re-applying with identical values is a no-op in effect (the store is
unchanged by the second application).  Stated for addresses free of
':'. -/
theorem C9_owned_index (s : Store) (c : Collection)
    (hip : ':' ∉ c.IPNSAddress) (hn : c.Name ≠ []) (hia : c.IPNSAddress ≠ []) :
    (CreateOrUpdateCollection s c).1 = none ∧
    (c.IsMine = true →
      (CreateOrUpdateCollection s c).2.get
        (dbKeyString [lit "collections_mine", c.IPNSAddress]) = some (.str c.IPNSAddress)) ∧
    (c.IsMine = false →
      (CreateOrUpdateCollection s c).2.get
        (dbKeyString [lit "collections_mine", c.IPNSAddress])
        = s.get (dbKeyString [lit "collections_mine", c.IPNSAddress])) ∧
    CreateOrUpdateCollection (CreateOrUpdateCollection s c).2 c
      = (none, (CreateOrUpdateCollection s c).2) := by
  have hfold : ∀ snap txn : Store,
      createOrUpdateFolderInTxn snap txn { IPNSAddress := c.IPNSAddress, Path := [] }
        = .ok (txn.set (dbKeyString [lit "folders", c.IPNSAddress, []]) (.str [])) :=
    fun _ _ => rfl
  have hinv : ¬ (c.Name = [] ∨ c.IPNSAddress = []) := by
    intro hx
    rcases hx with hx | hx
    · exact hn hx
    · exact hia hx
  -- key normalisations
  have nk1 : dbKeyString [lit "collections", c.IPNSAddress]
      = lit "collections" ++ ':' :: ':' :: c.IPNSAddress := by
    rw [dbKeyString_cons_plain _ (by decide) _ (by simp), dbKeyString_one_plain _ hip]
  have nk2 : dbKeyString [lit "collection", c.IPNSAddress, lit "name"]
      = lit "collection" ++ ':' :: ':' :: (c.IPNSAddress ++ ':' :: ':' :: lit "name") := by
    rw [dbKeyString_cons_plain _ (by decide) _ (by simp),
      dbKeyString_cons_plain _ hip _ (by simp), dbKeyString_one_plain _ (by decide)]
  have nk3 : dbKeyString [lit "collection", c.IPNSAddress, lit "description"]
      = lit "collection" ++ ':' :: ':' :: (c.IPNSAddress ++ ':' :: ':' :: lit "description") := by
    rw [dbKeyString_cons_plain _ (by decide) _ (by simp),
      dbKeyString_cons_plain _ hip _ (by simp), dbKeyString_one_plain _ (by decide)]
  have nk4 : dbKeyString [lit "collection", c.IPNSAddress, lit "ismine"]
      = lit "collection" ++ ':' :: ':' :: (c.IPNSAddress ++ ':' :: ':' :: lit "ismine") := by
    rw [dbKeyString_cons_plain _ (by decide) _ (by simp),
      dbKeyString_cons_plain _ hip _ (by simp), dbKeyString_one_plain _ (by decide)]
  have nkM : dbKeyString [lit "collections_mine", c.IPNSAddress]
      = lit "collections_mine" ++ ':' :: ':' :: c.IPNSAddress := by
    rw [dbKeyString_cons_plain _ (by decide) _ (by simp), dbKeyString_one_plain _ hip]
  have nkR : dbKeyString [lit "folders", c.IPNSAddress, []]
      = lit "folders" ++ ':' :: ':' :: (c.IPNSAddress ++ ':' :: ':' :: []) := by
    rw [dbKeyString_cons_plain _ (by decide) _ (by simp),
      dbKeyString_cons_plain _ hip _ (by simp), dbKeyString_one_plain _ (by simp)]
  -- single-segment keys also fit the `ns ++ "::" ++ rest` shape
  have hR1 : dbKeyString [lit "folders", c.IPNSAddress, []]
      ≠ dbKeyString [lit "collections", c.IPNSAddress] := by
    rw [nkR, nk1]; exact ns_key_ne (by decide) (by decide) (by decide) _ _
  have hR2 : dbKeyString [lit "folders", c.IPNSAddress, []]
      ≠ dbKeyString [lit "collection", c.IPNSAddress, lit "name"] := by
    rw [nkR, nk2]; exact ns_key_ne (by decide) (by decide) (by decide) _ _
  have hR3 : dbKeyString [lit "folders", c.IPNSAddress, []]
      ≠ dbKeyString [lit "collection", c.IPNSAddress, lit "description"] := by
    rw [nkR, nk3]; exact ns_key_ne (by decide) (by decide) (by decide) _ _
  have hR4 : dbKeyString [lit "folders", c.IPNSAddress, []]
      ≠ dbKeyString [lit "collection", c.IPNSAddress, lit "ismine"] := by
    rw [nkR, nk4]; exact ns_key_ne (by decide) (by decide) (by decide) _ _
  have hRM : dbKeyString [lit "folders", c.IPNSAddress, []]
      ≠ dbKeyString [lit "collections_mine", c.IPNSAddress] := by
    rw [nkR, nkM]; exact ns_key_ne (by decide) (by decide) (by decide) _ _
  have h41 : dbKeyString [lit "collection", c.IPNSAddress, lit "ismine"]
      ≠ dbKeyString [lit "collections", c.IPNSAddress] := by
    rw [nk4, nk1]; exact ns_key_ne (by decide) (by decide) (by decide) _ _
  have h42 : dbKeyString [lit "collection", c.IPNSAddress, lit "ismine"]
      ≠ dbKeyString [lit "collection", c.IPNSAddress, lit "name"] := by
    rw [nk4, nk2]; exact key3_ne_of_ne (by decide)
  have h43 : dbKeyString [lit "collection", c.IPNSAddress, lit "ismine"]
      ≠ dbKeyString [lit "collection", c.IPNSAddress, lit "description"] := by
    rw [nk4, nk3]; exact key3_ne_of_ne (by decide)
  have h4M : dbKeyString [lit "collection", c.IPNSAddress, lit "ismine"]
      ≠ dbKeyString [lit "collections_mine", c.IPNSAddress] := by
    rw [nk4, nkM]; exact ns_key_ne (by decide) (by decide) (by decide) _ _
  have hM1 : dbKeyString [lit "collections_mine", c.IPNSAddress]
      ≠ dbKeyString [lit "collections", c.IPNSAddress] := by
    rw [nkM, nk1]; exact ns_key_ne (by decide) (by decide) (by decide) _ _
  have hM2 : dbKeyString [lit "collections_mine", c.IPNSAddress]
      ≠ dbKeyString [lit "collection", c.IPNSAddress, lit "name"] := by
    rw [nkM, nk2]; exact ns_key_ne (by decide) (by decide) (by decide) _ _
  have hM3 : dbKeyString [lit "collections_mine", c.IPNSAddress]
      ≠ dbKeyString [lit "collection", c.IPNSAddress, lit "description"] := by
    rw [nkM, nk3]; exact ns_key_ne (by decide) (by decide) (by decide) _ _
  have h31 : dbKeyString [lit "collection", c.IPNSAddress, lit "description"]
      ≠ dbKeyString [lit "collections", c.IPNSAddress] := by
    rw [nk3, nk1]; exact ns_key_ne (by decide) (by decide) (by decide) _ _
  have h32 : dbKeyString [lit "collection", c.IPNSAddress, lit "description"]
      ≠ dbKeyString [lit "collection", c.IPNSAddress, lit "name"] := by
    rw [nk3, nk2]; exact key3_ne_of_ne (by decide)
  have h21 : dbKeyString [lit "collection", c.IPNSAddress, lit "name"]
      ≠ dbKeyString [lit "collections", c.IPNSAddress] := by
    rw [nk2, nk1]; exact ns_key_ne (by decide) (by decide) (by decide) _ _
  by_cases hm : c.IsMine = true
  · have h1 : CreateOrUpdateCollection s c = (none,
        (((((s.set (dbKeyString [lit "collections", c.IPNSAddress]) (.str c.IPNSAddress)).set
          (dbKeyString [lit "collection", c.IPNSAddress, lit "name"]) (.str c.Name)).set
          (dbKeyString [lit "collection", c.IPNSAddress, lit "description"])
            (.str c.Description)).set
          (dbKeyString [lit "collections_mine", c.IPNSAddress]) (.str c.IPNSAddress)).set
          (dbKeyString [lit "collection", c.IPNSAddress, lit "ismine"]) (.str ['1'])).set
          (dbKeyString [lit "folders", c.IPNSAddress, []]) (.str []) ) := by
      simp only [CreateOrUpdateCollection, if_neg hinv, dbUpdate, hm, if_true, hfold]
    refine ⟨by rw [h1], fun _ => ?_, fun hq => absurd hm (by simp [hq]), ?_⟩
    · rw [h1]
      rw [Store.get_set_ne _ _ hRM, Store.get_set_ne _ _ h4M, Store.get_set_self]
    · rw [h1]
      simp only [CreateOrUpdateCollection, if_neg hinv, dbUpdate, hm, if_true, hfold]
      exact congrArg (Prod.mk none)
        (six_sets_idem s _ _ _ _ _ _ _ _ _ _ _ _
          h21 h31 hM1 h41 hR1 h32 hM2 h42 hR2 hM3 h43 hR3 h4M hRM hR4)
  · have hmf : c.IsMine = false := by simpa using hm
    have h1 : CreateOrUpdateCollection s c = (none,
        ((((s.set (dbKeyString [lit "collections", c.IPNSAddress]) (.str c.IPNSAddress)).set
          (dbKeyString [lit "collection", c.IPNSAddress, lit "name"]) (.str c.Name)).set
          (dbKeyString [lit "collection", c.IPNSAddress, lit "description"])
            (.str c.Description)).set
          (dbKeyString [lit "collection", c.IPNSAddress, lit "ismine"]) (.str ['0'])).set
          (dbKeyString [lit "folders", c.IPNSAddress, []]) (.str []) ) := by
      simp only [CreateOrUpdateCollection, if_neg hinv, dbUpdate, hmf, if_false, hfold]
      simp
    refine ⟨by rw [h1], fun hq => absurd hq hm, fun _ => ?_, ?_⟩
    · rw [h1]
      rw [Store.get_set_ne _ _ hRM, Store.get_set_ne _ _ h4M, Store.get_set_ne _ _ hM3.symm,
        Store.get_set_ne _ _ hM2.symm, Store.get_set_ne _ _ hM1.symm]
    · rw [h1]
      simp only [CreateOrUpdateCollection, if_neg hinv, dbUpdate, hmf, if_false, hfold,
        Bool.false_eq_true]
      exact congrArg (Prod.mk none)
        (five_sets_idem s _ _ _ _ _ _ _ _ _ _
          h21 h31 h41 hR1 h32 h42 hR2 h43 hR3 hR4)


/-- Witness for `C9_owned_index` at a concrete collection. -/
theorem C9_owned_index_witness :
    (CreateOrUpdateCollection [] C9_cT).1 = none ∧
    (C9_cT.IsMine = true →
      (CreateOrUpdateCollection [] C9_cT).2.get
        (dbKeyString [lit "collections_mine", C9_cT.IPNSAddress])
        = some (.str C9_cT.IPNSAddress)) ∧
    (C9_cT.IsMine = false →
      (CreateOrUpdateCollection [] C9_cT).2.get
        (dbKeyString [lit "collections_mine", C9_cT.IPNSAddress])
        = Store.get [] (dbKeyString [lit "collections_mine", C9_cT.IPNSAddress])) ∧
    CreateOrUpdateCollection (CreateOrUpdateCollection [] C9_cT).2 C9_cT
      = (none, (CreateOrUpdateCollection [] C9_cT).2) :=
  C9_owned_index [] C9_cT (by decide) (by decide) (by decide)


/-! ### C10: CreateOrUpdateFolder is not idempotent -/

theorem C10_step0 : CreateOrUpdateFolder C10_base C10_fa = (none, C10_store [lit "a"]) := by
  decide

theorem C10_stepS (l : List Str) :
    CreateOrUpdateFolder (C10_store l) C10_fa = (none, C10_store (l ++ [lit "a"])) := rfl

theorem C10_iter_eq : ∀ n : Nat, C10_iter (n + 1) = C10_store (List.replicate (n + 1) (lit "a"))
  | 0 => by
    rw [show C10_iter 1 = (CreateOrUpdateFolder C10_base C10_fa).2 from rfl, C10_step0]
    rfl
  | n + 1 => by
    rw [show C10_iter (n + 2) = (CreateOrUpdateFolder (C10_iter (n + 1)) C10_fa).2 from rfl,
      C10_iter_eq n, C10_stepS, ← List.replicate_succ' (n + 1) (lit "a")]

theorem C10_children_read (l : List Str) :
    ReadFolderChildren (C10_store l) rootF = .ok l := rfl

/-- C10: `CreateOrUpdateFolder` is not idempotent for existing non-root
folders: each of the `n` calls for the same (collection, path) succeeds
and appends the folder's path to the parent's children list again, so
`ReadFolderChildren` on the parent returns `n` duplicate entries. -/
theorem C10_create_folder_not_idempotent (n : Nat) :
    (CreateOrUpdateFolder (C10_iter n) C10_fa).1 = none ∧
    ReadFolderChildren (C10_iter n) rootF = .ok (List.replicate n (lit "a")) := by
  cases n with
  | zero =>
    exact ⟨by rw [show C10_iter 0 = C10_base from rfl, C10_step0], by decide⟩
  | succ m =>
    refine ⟨?_, ?_⟩
    · rw [C10_iter_eq m, C10_stepS]
    · rw [C10_iter_eq m, C10_children_read]

/-- Witness for `C10_create_folder_not_idempotent` at `n = 2`. -/
theorem C10_create_folder_not_idempotent_witness :
    ReadFolderChildren (C10_iter 2) rootF = .ok (List.replicate 2 (lit "a")) :=
  (C10_create_folder_not_idempotent 2).2

end Resource
